import Mathlib

/-!
Verification of the policy-configuration core of robinhood
(`src/cfg_parsing/rbh_cfg.c`): typed scalar extraction, criteria-to-triplet
compilation, the recursive boolean/set-expression builders and the
ownership model of the resulting expression graph.

The C code is shallowly embedded: C enums become Lean inductives, flag words
become `Nat` bit masks, `errno`-style returns with an error-message buffer
become `Except CfgErr` or explicit result records, and the `bool_node_t`
object graph (with its owner flags and shared file-class subtrees) becomes an
explicit heap of numbered objects so that allocation and `free` are
observable.

Helper macros and leaf parsers that live in headers or in `rbh_misc.c`
(not part of the analysed sources) are modelled from the specification and
are marked `Modelled from the spec:` in their doc comments.
-/

namespace RbhCfg

/-! ### errno codes (POSIX numeric values, as returned by the C code) -/

def ENOENT : Nat := 2
def ENOMEM : Nat := 12
def EFAULT : Nat := 14
def EINVAL : Nat := 22
def ENOTSUP : Nat := 95

/-! ### Parameter parsing flags

Modelled from the spec: the `PFLG_*` constants are defined in `rbh_cfg.h`,
which is not among the analysed sources; only their distinctness as bits
matters to the code, so they are assigned consecutive bits here
(spec section 4.B lists the flag set). -/

def PFLG_MANDATORY : Nat := 1
def PFLG_NOT_EMPTY : Nat := 2
def PFLG_POSITIVE : Nat := 4
def PFLG_NOT_NULL : Nat := 8
def PFLG_ABSOLUTE_PATH : Nat := 16
def PFLG_NO_WILDCARDS : Nat := 32
def PFLG_ALLOW_ANY_DEPTH : Nat := 64
def PFLG_ALLOW_PCT_SIGN : Nat := 128
def PFLG_STDIO_ALLOWED : Nat := 256
def PFLG_MAIL : Nat := 512
def PFLG_REMOVE_FINAL_SLASH : Nat := 1024
def PFLG_XATTR : Nat := 2048
def PFLG_STATUS : Nat := 4096
def PFLG_COMPARABLE : Nat := 8192
def PFLG_NO_SLASH : Nat := 16384

/-- Modelled from the spec: per-triplet flag `ANY_LEVEL`, set when a `**`
wildcard was rewritten (spec section 3, "Comparison triplet"). -/
def CMP_FLG_ANY_LEVEL : Nat := 1

/-- Modelled from the spec: capacity of the `val.str` / string buffers of a
compiled triplet (`RBH_PATH_MAX` in headers not among the sources); string
writes are length-bounded and NUL-terminated at the target's capacity
(spec section 4.B step 5). -/
def RBH_PATH_MAX : Nat := 4096

/-! ### Syntactic and compiled enums (from `rbh_cfg.c` / its parse tree) -/

/-- Syntactic comparison operator of a key/value item (`operator_t`). -/
inductive Operator where
  | op_equal
  | op_diff
  | op_gt
  | op_gt_eq
  | op_lt
  | op_lt_eq
  | op_cmd
deriving DecidableEq, Repr

/-- Compiled comparator (`compare_direction_t`). -/
inductive CompareDirection where
  | comp_none
  | comp_grthan
  | comp_grthan_eq
  | comp_lsthan
  | comp_lsthan_eq
  | comp_equal
  | comp_diff
  | comp_like
  | comp_unlike
deriving DecidableEq, Repr

/-- Syntactic boolean operator of the parse tree (`bool_operator_t`). -/
inductive BoolOperator where
  | op_identity
  | op_not
  | op_and
  | op_or
deriving DecidableEq, Repr

/-- Compiled boolean operator (`bool_op_t`). -/
inductive BoolOp where
  | bool_err
  | bool_not
  | bool_and
  | bool_or
deriving DecidableEq, Repr

/-- Kind of a compiled bool-tree node (`node_type`). -/
inductive NodeType where
  | node_condition
  | node_unary_expr
  | node_binary_expr
deriving DecidableEq, Repr

/-- Set-expression operator of the parse tree (`set_op`). -/
inductive SetOp where
  | set_op_not
  | set_op_union
  | set_op_inter
deriving DecidableEq, Repr

/-- Declared value type of a parameter or criterion (`cfg_param_type`). -/
inductive CfgParamType where
  | pt_string
  | pt_bool
  | pt_int
  | pt_int64
  | pt_float
  | pt_size
  | pt_duration
  | pt_type
deriving DecidableEq, Repr

/-- File-type token (`obj_type_t`); `tnone` is `TYPE_NONE`. -/
inductive TypeToken where
  | tnone
  | tfile
  | tdirectory
  | tsymlink
  | tchr
  | tblk
  | tfifo
  | tsock
deriving DecidableEq, Repr

/-- Criterion identifiers (`compare_criteria_t`); the closed set of
left-hand sides of conditions (spec section 3). -/
inductive CompareCriteria where
  | crit_tree
  | crit_path
  | crit_filename
  | crit_owner
  | crit_group
  | crit_pool
  | crit_type
  | crit_size
  | crit_depth
  | crit_ost
  | crit_last_access
  | crit_last_mod
  | crit_xattr
  | crit_status
deriving DecidableEq, Repr

/-! ### Character and string helpers (modelled libc / `rbh_misc` behavior) -/

def isWs (c : Char) : Bool :=
  c = ' ' || c = '\t' || c = '\n' || c = '\x0d'

def isDigit (c : Char) : Bool :=
  '0' ≤ c && c ≤ '9'

def digitVal (c : Char) : Nat := c.toNat - '0'.toNat

def digitsToNat (l : List Char) : Nat :=
  l.foldl (fun acc c => 10 * acc + digitVal c) 0

def dropWs (l : List Char) : List Char := l.dropWhile isWs

/-- Modelled from the spec: `sscanf`'s `%s` conversion — skip whitespace and
read the next whitespace-delimited token (at most `width` characters);
`none` when only whitespace remains. -/
def scanToken (width : Nat) (l : List Char) : Option String :=
  let l' := dropWs l
  if l'.isEmpty then none
  else some ⟨(l'.takeWhile (fun c => !isWs c)).take width⟩

/-- ASCII lower-casing of one character (`tolower`). -/
def charLower (c : Char) : Char :=
  if 65 ≤ c.toNat && c.toNat ≤ 90 then Char.ofNat (c.toNat + 32) else c

/-- ASCII lower-casing (`tolower` over the string). -/
def lowerStr (s : String) : String := ⟨s.toList.map charLower⟩

/-- Modelled from the spec: case-insensitive string equality
(`strcasecmp(a, b) == 0`). -/
def strcaseEq (a b : String) : Bool := lowerStr a == lowerStr b

/-- Modelled from the spec: `rh_strncpy(dst, src, n)` copies at most `n - 1`
characters and NUL-terminates. -/
def rh_strncpy (src : String) (n : Nat) : String := ⟨src.toList.take (n - 1)⟩

/-- Modelled from the spec: the `WILDCARDS_IN` macro — the string contains one
of the shell wildcards `*`, `?`, `[` (spec sections 4.B and 8). -/
def wildcardsIn (s : String) : Bool :=
  s.toList.any (fun c => c = '*' || c = '?' || c = '[')

/-- Modelled from the spec: the `SLASH_IN` macro — the string contains `/`. -/
def slashIn (s : String) : Bool := s.toList.any (fun c => c = '/')

def hasDstar : List Char → Bool
  | '*' :: '*' :: _ => true
  | _ :: rest => hasDstar rest
  | [] => false

/-- Modelled from the spec: the `ANY_LEVEL_MATCH` macro — the string contains
the any-level token `**` (spec section 3). -/
def anyLevelMatch (s : String) : Bool := hasDstar s.toList

/-- Modelled from the spec: the `IS_ABSOLUTE_PATH` macro — first character is
`/` (spec: "reject strings not starting with /"). -/
def isAbsolutePath (s : String) : Bool :=
  match s.toList with
  | '/' :: _ => true
  | _ => false

/-- Modelled from the spec: the `FINAL_SLASH` macro — length above one and a
final `/` ("strip a trailing slash, never strip the root"). -/
def finalSlash (s : String) : Bool :=
  s.length > 1 && s.toList.getLast? = some '/'

def removeFinalSlash (s : String) : String := ⟨s.toList.dropLast⟩

/-! ### Leaf value parsers (`rbh_misc.c`, modelled from spec section 4.A) -/

def parseNatPfx (l : List Char) : Option (Nat × List Char) :=
  let ds := l.takeWhile isDigit
  if ds.isEmpty then none
  else some (digitsToNat ds, l.drop ds.length)

/-- Modelled from the spec: `sscanf(value, "%d%256s", ...)` — optionally
signed decimal integer, then the next whitespace-delimited token if any
non-whitespace text remains. `none` when no integer could be read. -/
def scanInt (s : String) : Option (Int × Option String) :=
  let l := dropWs s.toList
  match l with
  | '-' :: r =>
      (parseNatPfx r).map (fun p => (-(p.1 : Int), scanToken 256 p.2))
  | '+' :: r =>
      (parseNatPfx r).map (fun p => ((p.1 : Int), scanToken 256 p.2))
  | _ =>
      (parseNatPfx l).map (fun p => ((p.1 : Int), scanToken 256 p.2))

/-- Modelled from the spec: `sscanf(value, "%" SCNu64 "%256s", ...)` — the
`%u`-family accepts an optionally signed decimal (a minus sign negates
modulo 2^64, as `strtoull` does); then the next whitespace-delimited token.
Out-of-range accumulation is undefined by ISO C and modelled as wrap. -/
def scanU64 (s : String) : Option (Nat × Option String) :=
  let l := dropWs s.toList
  match l with
  | '-' :: r =>
      (parseNatPfx r).map
        (fun p => ((2 ^ 64 - p.1 % 2 ^ 64) % 2 ^ 64, scanToken 256 p.2))
  | '+' :: r =>
      (parseNatPfx r).map (fun p => (p.1 % 2 ^ 64, scanToken 256 p.2))
  | _ =>
      (parseNatPfx l).map (fun p => (p.1 % 2 ^ 64, scanToken 256 p.2))

/-- Modelled from the spec: `sscanf(value, "%lf%256s", ...)` — a decimal
float (optional sign, digits with optional fraction; the exact binary
rounding of the C `double` is idealised as a rational, which no analysed
check depends on), then the next whitespace-delimited token. -/
def scanFloat (s : String) : Option (Rat × Option String) :=
  let l := dropWs s.toList
  let p := fun (sgn : Int) (l1 : List Char) =>
    let ip := l1.takeWhile isDigit
    let r1 := l1.drop ip.length
    match r1 with
    | '.' :: r2 =>
        let fp := r2.takeWhile isDigit
        if ip.isEmpty && fp.isEmpty then none
        else
          let v : Rat :=
            (sgn : Rat) *
              ((digitsToNat ip : Rat) + (digitsToNat fp : Rat) / ((10 : Rat) ^ fp.length))
          some (v, scanToken 256 (r2.drop fp.length))
    | _ =>
        if ip.isEmpty then none
        else some ((sgn : Rat) * (digitsToNat ip : Rat), scanToken 256 r1)
  match l with
  | '-' :: r => p (-1) r
  | '+' :: r => p 1 r
  | _ => p 1 l

/-- Modelled from the spec: `str2bool` — case-insensitive
`true/yes/enabled/1` give 1, `false/no/disabled/0` give 0, else -1. -/
def str2bool (s : String) : Int :=
  let t := lowerStr s
  if t = "true" || t = "yes" || t = "enabled" || t = "1" then 1
  else if t = "false" || t = "no" || t = "disabled" || t = "0" then 0
  else -1

/-- Modelled from the spec: `str2int` — optional sign and digits with no
other non-whitespace text; returns -1 on malformed input (the error
sentinel). -/
def str2int (s : String) : Int :=
  match scanInt s with
  | some (v, none) => v
  | _ => -1

def durUnitSecs (c : Char) : Option Nat :=
  if c = 's' then some 1
  else if c = 'm' then some 60
  else if c = 'h' then some 3600
  else if c = 'd' then some 86400
  else if c = 'w' then some 604800
  else if c = 'y' then some 31536000
  else none

def str2durGo (fuel : Nat) (l : List Char) (acc : Nat) : Option Nat :=
  match fuel with
  | 0 => none
  | fuel + 1 =>
    match parseNatPfx l with
    | none => none
    | some (n, rest) =>
      match rest with
      | [] => some (acc + n)
      | u :: rest2 =>
        match durUnitSecs u with
        | none => none
        | some k =>
          if rest2.isEmpty then some (acc + n * k)
          else str2durGo fuel rest2 (acc + n * k)

/-- Modelled from the spec: `str2duration` — a concatenation of
`<n><unit>` fragments with units `s m h d w y`, a bare trailing integer
meaning seconds; returns -1 on error (the error sentinel). -/
def str2duration (s : String) : Int :=
  match str2durGo (s.length + 1) s.toList 0 with
  | some n => (n : Int)
  | none => -1

def sizeUnitFactor (u : String) : Option Nat :=
  let t := lowerStr u
  if t = "" || t = "b" then some 1
  else if t = "kb" then some (2 ^ 10)
  else if t = "mb" then some (2 ^ 20)
  else if t = "gb" then some (2 ^ 30)
  else if t = "tb" then some (2 ^ 40)
  else if t = "pb" then some (2 ^ 50)
  else none

/-- Modelled from the spec: `str2size` — digits and a binary unit
(`B`, `KB`, `MB`, `GB`, `TB`, `PB`, factors of 1024); returns
`(unsigned long long) -1`, i.e. `2^64 - 1`, on malformed input. -/
def str2size (s : String) : Nat :=
  match parseNatPfx s.toList with
  | none => 2 ^ 64 - 1
  | some (n, rest) =>
    match sizeUnitFactor ⟨rest⟩ with
    | some k => n * k % 2 ^ 64
    | none => 2 ^ 64 - 1

/-- Modelled from the spec: `str2type` — one of the file-type tokens
`file directory symlink chr blk fifo sock`, otherwise `TYPE_NONE`. -/
def str2type (s : String) : TypeToken :=
  let t := lowerStr s
  if t = "file" then .tfile
  else if t = "directory" then .tdirectory
  else if t = "symlink" then .tsymlink
  else if t = "chr" then .tchr
  else if t = "blk" then .tblk
  else if t = "fifo" then .tfifo
  else if t = "sock" then .tsock
  else .tnone

end RbhCfg

namespace RbhCfg

/-! ### Error values

The C functions return an `errno`-style code and print a message into a
caller buffer; both are carried here so that distinct failure kinds stay
distinguishable. -/

structure CfgErr where
  rc : Nat
  msg : String
deriving DecidableEq, Repr

/-- Modelled from the spec: a status-manager instance (`sm_instance_t`,
external plugin): its index and the named set of legal status values
(spec section 3 and glossary). -/
structure SmInstance where
  smi_index : Nat
  sm_name : String
  sm_statuses : List String
deriving DecidableEq, Repr

/-- Modelled from the spec: `SMI_MASK(i)` — the attribute bit derived from
the status-manager's index (spec section 3, "Attribute mask"). -/
def smiMask (i : Nat) : Nat := 2 ^ i

/-- Modelled from the spec: `get_status_str(sm, v)` is non-NULL exactly when
`v` is a legal status value of the status manager. -/
def get_status_str (smi : SmInstance) (v : String) : Bool :=
  smi.sm_statuses.contains v

/-- Modelled from the spec: `allowed_status_str` — the legal values listed
for the error message. -/
def allowed_status_str (smi : SmInstance) : String :=
  match smi.sm_statuses with
  | [] => ""
  | x :: rest => rest.foldl (fun acc v => acc ++ ", " ++ v) x

/-! ### Parse-tree and triplet data (`type_key_value`, `compare_triplet_t`) -/

/-- A key/value item of the parse tree (`type_key_value`): name, operator,
value and trailing extra arguments. -/
structure TypeKeyValue where
  varname : String
  varvalue : String
  op_type : Operator
  arg_list : List String := []
deriving DecidableEq, Repr

/-- The `compare_value_t` union. The C union stores one member per
criterion type; the record keeps them as independent fields, which is
faithful because the code only ever reads the member it wrote. -/
structure CompareValue where
  str : String := ""
  size : Nat := 0
  integer : Int := 0
  duration : Int := 0
  type : TypeToken := .tnone
deriving DecidableEq, Repr

/-- A compiled comparison triplet (`compare_triplet_t`). -/
structure CompareTriplet where
  crit : CompareCriteria := .crit_path
  op : CompareDirection := .comp_none
  val : CompareValue := {}
  xattr_name : String := ""
  flags : Nat := 0
deriving DecidableEq, Repr

instance : Inhabited CompareTriplet := ⟨{}⟩

/-! ### Operator conversion (lines 851-890) -/

/-- `syntax2conf_comparator`: syntactic comparator to compiled comparator;
`OP_CMD` and anything unexpected map to `COMP_NONE`. -/
def syntax2conf_comparator (op : Operator) : CompareDirection :=
  match op with
  | .op_equal => .comp_equal
  | .op_diff => .comp_diff
  | .op_gt => .comp_grthan
  | .op_gt_eq => .comp_grthan_eq
  | .op_lt => .comp_lsthan
  | .op_lt_eq => .comp_lsthan_eq
  | .op_cmd => .comp_none

/-- `syntax2conf_boolop`: syntactic boolean operator to compiled operator;
`IDENTITY` (the default branch) maps to `BOOL_ERR`. -/
def syntax2conf_boolop (boolop : BoolOperator) : BoolOp :=
  match boolop with
  | .op_not => .bool_not
  | .op_and => .bool_and
  | .op_or => .bool_or
  | .op_identity => .bool_err

/-! ### Any-level (`**`) handling (lines 892-948) -/

/-- The flank validation loop of `process_any_level_condition`
(lines 897-927): every occurrence of `**` must be preceded by `/` unless it
starts the string and followed by `/` unless it ends it; the search resumes
two characters past each occurrence. `prev` is the character just before
the current position. -/
def checkFlanksB (prev : Option Char) : List Char → Bool
  | '*' :: '*' :: rest =>
      (prev = none || prev = some '/') &&
      (rest.isEmpty || rest.head? = some '/') &&
      checkFlanksB (some '*') rest
  | c :: rest => checkFlanksB (some c) rest
  | [] => true

/-- Modelled from the spec: `str_replace(s, "?", "[!/]")` from `rbh_misc.c`
— replace every non-escaped `?` by the bracket class `[!/]`
(spec section 4.C rewrites "non-escaped `?` to `[!/]`"). -/
def replaceQm : List Char → List Char
  | '\\' :: c :: rest => '\\' :: c :: replaceQm rest
  | '?' :: rest => '[' :: '!' :: '/' :: ']' :: replaceQm rest
  | c :: rest => c :: replaceQm rest
  | [] => []

/-- Modelled from the spec: `str_replace(s, "**", "*")` from `rbh_misc.c` —
replace every occurrence of `**` by `*`, scanning left to right. -/
def replaceDstar : List Char → List Char
  | '*' :: '*' :: rest => '*' :: replaceDstar rest
  | c :: rest => c :: replaceDstar rest
  | [] => []

/-- `process_any_level_condition` (lines 892-948): validate that every `**`
is flanked by `/` where it is not at a string boundary, then rewrite
non-escaped `?` to `[!/]` and `**` to `*` (the C rewrites the buffer in
place; the rewritten string is returned here). -/
def process_any_level_condition (regexpr : String) : Except CfgErr String :=
  if checkFlanksB none regexpr.toList then
    .ok ⟨replaceDstar (replaceQm regexpr.toList)⟩
  else
    .error ⟨EINVAL,
      s!"Character before and after '**' must be a '/' in '{regexpr}'"⟩

/-! ### The criteria compiler (`criteria2condition`, lines 964-1123) -/

/-- `CHECK_INT_VALUE` (lines 950-961) for a signed value: `PFLG_POSITIVE`
rejects negatives, `PFLG_NOT_NULL` rejects zero. -/
def check_int_value (varname : String) (v : Int) (flags : Nat) :
    Except CfgErr Unit :=
  if flags &&& PFLG_POSITIVE ≠ 0 && decide (v < 0) then
    .error ⟨EINVAL, s!"Positive value expected for {varname} criteria"⟩
  else if flags &&& PFLG_NOT_NULL ≠ 0 && decide (v = 0) then
    .error ⟨EINVAL, s!"Null value not allowed for {varname} criteria"⟩
  else .ok ()

/-- `CHECK_INT_VALUE` applied to the unsigned `val.size`: the comparison
`size < 0` on `unsigned long long` is constant false, so only the
`PFLG_NOT_NULL` arm can fire (the spec notes the vacuity in section 9). -/
def check_uint_value (varname : String) (v : Nat) (flags : Nat) :
    Except CfgErr Unit :=
  if flags &&& PFLG_POSITIVE ≠ 0 && decide (v < 0) then
    .error ⟨EINVAL, s!"Positive value expected for {varname} criteria"⟩
  else if flags &&& PFLG_NOT_NULL ≠ 0 && decide (v = 0) then
    .error ⟨EINVAL, s!"Null value not allowed for {varname} criteria"⟩
  else .ok ()

/-- The `PT_STRING` arm of `criteria2condition`'s switch (lines 989-1058):
emptiness/slash constraints, wildcard detection with the `LIKE`/`UNLIKE`
operator rewriting, the bounded copy into `val.str`, then the
xattr / status / any-level postprocessing. The two `sprintf` calls that the
C mistakenly passes no buffer (lines 992, 998, 1053) are modelled as
producing their format text; spec section 9 records them as bugs. -/
def c2c_string_case (kv : TypeKeyValue) (t : CompareTriplet) (flags : Nat)
    (smi : Option SmInstance) : Except CfgErr CompareTriplet :=
  if flags &&& PFLG_NOT_EMPTY ≠ 0 && kv.varvalue = "" then
    .error ⟨EINVAL, s!"non-empty string expected for {kv.varname} parameter"⟩
  else if flags &&& PFLG_NO_SLASH ≠ 0 && slashIn kv.varvalue then
    .error ⟨EINVAL, s!"no slash (/) expected in {kv.varname} parameter"⟩
  else
    -- comparators are changed to LIKE / UNLIKE if the string has wildcards
    match
      (if wildcardsIn kv.varvalue then
        if flags &&& PFLG_NO_WILDCARDS ≠ 0 then
          .error ⟨EINVAL, s!"No wildcard is allowed in {kv.varname} criteria"⟩
        else if t.op = .comp_equal then .ok { t with op := .comp_like }
        else if t.op = .comp_diff then .ok { t with op := .comp_unlike }
        else .ok t
      else (.ok t : Except CfgErr CompareTriplet)) with
    | .error e => .error e
    | .ok t1 =>
      let t2 := { t1 with val.str := rh_strncpy kv.varvalue RBH_PATH_MAX }
      if flags &&& PFLG_XATTR ≠ 0 then
        -- strchr(varname, '.') + 1: the part of the criterion name after
        -- the first dot
        let xn : String := ⟨(kv.varname.toList.dropWhile (fun c => c ≠ '.')).drop 1⟩
        .ok { t2 with xattr_name := rh_strncpy xn RBH_PATH_MAX }
      else if flags &&& PFLG_STATUS ≠ 0 then
        match smi with
        | some sm =>
          if !get_status_str sm t2.val.str && t2.val.str.length > 0 then
            .error ⟨EINVAL,
              s!"Invalid status '{kv.varvalue}' for '{sm.sm_name}' status manager: allowed values are {allowed_status_str sm}"⟩
          else .ok t2
        | none => .ok t2
      else if anyLevelMatch t2.val.str then
        if flags &&& PFLG_ALLOW_ANY_DEPTH ≠ 0 then
          match process_any_level_condition t2.val.str with
          | .error e => .error e
          | .ok s' =>
            .ok { t2 with val.str := s', flags := t2.flags ||| CMP_FLG_ANY_LEVEL }
        else
          .error ⟨EINVAL,
            s!"double star wildcard (**) not expected in {kv.varname} parameter"⟩
      else .ok t2

/-- The value switch of `criteria2condition` (lines 987-1108): dispatch on
the criterion's declared type, parse and store the typed value. -/
def c2c_value_switch (kv : TypeKeyValue) (t : CompareTriplet)
    (ptype : CfgParamType) (flags : Nat) (smi : Option SmInstance) :
    Except CfgErr CompareTriplet :=
  match ptype with
  | .pt_string => c2c_string_case kv t flags smi
  | .pt_size =>
    let sz := str2size kv.varvalue
    if sz = 2 ^ 64 - 1 then
      .error ⟨EINVAL,
        s!"{kv.varname} criteria: invalid format for size: '{kv.varvalue}'"⟩
    else
      match check_uint_value kv.varname sz flags with
      | .error e => .error e
      | .ok _ => .ok { t with val.size := sz }
  | .pt_int =>
    let iv := str2int kv.varvalue
    if iv = -1 then
      .error ⟨EINVAL, s!"{kv.varname} criteria: integer expected: '{kv.varvalue}'"⟩
    else
      match check_int_value kv.varname iv flags with
      | .error e => .error e
      | .ok _ => .ok { t with val.integer := iv }
  | .pt_duration =>
    let dv := str2duration kv.varvalue
    if dv = -1 then
      .error ⟨EINVAL, s!"{kv.varname} criteria: duration expected: '{kv.varvalue}'"⟩
    else
      match check_int_value kv.varname dv flags with
      | .error e => .error e
      | .ok _ => .ok { t with val.duration := dv }
  | .pt_type =>
    let tv := str2type kv.varvalue
    if tv = .tnone then
      .error ⟨EINVAL,
        "Illegal condition on type: file, directory, symlink, chr, blk, fifo or sock expected."⟩
    else .ok { t with val.type := tv }
  | _ =>
    .error ⟨ENOTSUP, s!"Unsupported criteria type for {kv.varname}"⟩

/-- The final comparability check of `criteria2condition` (lines 1110-1120):
without `PFLG_COMPARABLE`, only `==`, `!=`, `LIKE`, `UNLIKE` are legal. -/
def comparator_check (varname : String) (flags : Nat) (op : CompareDirection) :
    Except CfgErr Unit :=
  if flags &&& PFLG_COMPARABLE = 0 && op ≠ .comp_equal && op ≠ .comp_diff &&
      op ≠ .comp_like && op ≠ .comp_unlike then
    .error ⟨EINVAL, s!"Illegal comparator for {varname} criteria: == or != expected"⟩
  else .ok ()

/-- `criteria2condition` (lines 964-1123): compile one `name OP value`
triple into a comparison triplet, folding the criterion's attribute mask
(and, for status criteria, the status-manager bit) into the running mask.
`t0` is the caller's triplet buffer (freshly allocated in the boolean
builder); the C updates it in place and the result is returned here
together with the updated mask. -/
def criteria2condition (kv : TypeKeyValue) (t0 : CompareTriplet) (mask0 : Nat)
    (crit : CompareCriteria) (ptype : CfgParamType) (attr_mask : Nat)
    (flags : Nat) (smi : Option SmInstance) :
    Except CfgErr (CompareTriplet × Nat) :=
  match
    (if flags &&& PFLG_STATUS ≠ 0 then
      match smi with
      | none =>
        .error ⟨EINVAL, s!"'{kv.varname}' criteria is not expected in this context"⟩
      | some sm => .ok (mask0 ||| smiMask sm.smi_index)
    else (.ok (mask0 ||| attr_mask) : Except CfgErr Nat)) with
  | .error e => .error e
  | .ok mask1 =>
    let t1 := { t0 with crit := crit, op := syntax2conf_comparator kv.op_type }
    -- line 985: the attribute mask is OR-ed in a second time, unconditionally
    let mask2 := mask1 ||| attr_mask
    match c2c_value_switch kv t1 ptype flags smi with
    | .error e => .error e
    | .ok t2 =>
      match comparator_check kv.varname flags t2.op with
      | .error e => .error e
      | .ok _ => .ok (t2, mask2)

/-! ### Criterion lookup (`interpret_condition`, lines 1129-1152)

`str2criteria` and the `criteria_descr` table live in the policies module,
outside the analysed sources; they are a parameter of the development. -/

/-- One row of the `criteria_descr` table: declared value type, base
attribute mask and parsing flags of a criterion. -/
structure CriteriaDescr where
  type : CfgParamType
  attr_mask : Nat
  parsing_flags : Nat
deriving Repr

/-- Modelled from the spec: the static criterion tables (`str2criteria` and
`criteria_descr`), kept abstract: any name resolution and any descriptor
assignment is allowed. -/
structure CritTable where
  str2criteria : String → Option CompareCriteria
  descr : CompareCriteria → CriteriaDescr

/-- `interpret_condition` (lines 1129-1152): resolve the criterion name,
seed the triplet's flags to 0 and delegate to `criteria2condition`. -/
def interpret_condition (tbl : CritTable) (kv : TypeKeyValue)
    (t0 : CompareTriplet) (mask0 : Nat) (smi : Option SmInstance) :
    Except CfgErr (CompareTriplet × Nat) :=
  match tbl.str2criteria kv.varname with
  | none =>
    .error ⟨EINVAL, s!"Unknown or unsupported criteria '{kv.varname}'"⟩
  | some crit =>
    let d := tbl.descr crit
    criteria2condition kv { t0 with flags := 0 } mask0 crit d.type d.attr_mask
      d.parsing_flags smi

end RbhCfg

namespace RbhCfg

/-! ### The bool-tree object heap

`bool_node_t` objects and the `compare_triplet_t` objects they point to are
heap-allocated in C; to make allocation, sharing through file classes and
`FreeBoolExpr`'s frees observable, nodes and triplets are numbered objects
in an explicit heap. The C union of a condition pointer and a
`bool_expr` struct is a record with independent fields (the `owner`
bit-field and the `condition` pointer occupy distinct bytes; the code only
reads the variant it wrote). -/

/-- One `bool_node_t` struct. `condition` is the address of the triplet of a
condition node; `expr1`/`expr2` are NULL-able child addresses. -/
structure BNode where
  node_type : NodeType := .node_condition
  condition : Nat := 0
  bool_op : BoolOp := .bool_err
  owner : Bool := false
  expr1 : Option Nat := none
  expr2 : Option Nat := none
deriving DecidableEq, Repr

instance : Inhabited BNode := ⟨{}⟩

/-- A heap object: a bool node or a comparison triplet. -/
inductive HObj where
  | node (n : BNode)
  | triplet (t : CompareTriplet)
deriving DecidableEq, Repr

instance : Inhabited HObj := ⟨.node {}⟩

/-- The heap: an association list of live objects (later writes shadow
earlier ones) and the next fresh address. -/
structure Heap where
  objs : List (Nat × HObj)
  next : Nat
deriving DecidableEq, Repr

/-- Write the object at an existing address (`*p = ...`). -/
def Heap.set (h : Heap) (a : Nat) (o : HObj) : Heap :=
  { h with objs := (a, o) :: h.objs }

/-- `malloc`: a fresh address holding an uninitialised object. -/
def Heap.alloc (h : Heap) (o : HObj) : Heap × Nat :=
  ({ objs := (h.next, o) :: h.objs, next := h.next + 1 }, h.next)

/-- Dereference an address. -/
def Heap.get (h : Heap) (a : Nat) : Option HObj :=
  (h.objs.find? (fun p => p.1 == a)).map (fun p => p.2)

/-! ### Parsed boolean and set expressions (input syntax tree) -/

/-- A parsed boolean expression (`type_bool_expr`). `other` stands for a
node whose `type` field is none of the three known tags (the C switch's
default branch). -/
inductive TypeBoolExpr where
  | condition (kv : TypeKeyValue)
  | unary (oper : BoolOperator) (e1 : TypeBoolExpr)
  | binary (oper : BoolOperator) (e1 e2 : TypeBoolExpr)
  | other (n : Nat)
deriving DecidableEq, Repr

/-- A parsed set expression (`type_set`). `binary` covers every
`set_type` that is neither `SET_SINGLETON` nor `SET_NEGATION` (the C
`else` branch reads only `oper`, `set1`, `set2`). -/
inductive TypeSet where
  | singleton (name : String)
  | negation (oper : SetOp) (s1 : TypeSet)
  | binary (oper : SetOp) (s1 s2 : TypeSet)
deriving DecidableEq, Repr

/-- A registered file class (`fileset_item_t`): its identifier, the root
`bool_node_t` struct value of its compiled definition (whose child
addresses point into class-owned heap objects) and its pre-computed
attribute mask. -/
structure FilesetItem where
  fileset_id : String
  definition : BNode
  attr_mask : Nat
deriving DecidableEq, Repr

/-! ### Boolean builder (`build_bool_expr`, lines 1157-1268) -/

/-- `build_bool_expr`: walk the parsed boolean expression, writing the
compiled tree into the node at `outAddr` and accumulating the attribute
mask. Freshly built interior nodes are `owner := true`; on error the C
frees the current frame's allocations and propagates, modelled by
discarding the heap. -/
def build_bool_expr (tbl : CritTable) (e : TypeBoolExpr) (outAddr : Nat)
    (h : Heap) (mask : Nat) (smi : Option SmInstance) :
    Except CfgErr (Heap × Nat) :=
  match e with
  | .condition kv =>
    -- malloc a fresh triplet, then interpret_condition fills it
    let (h1, ta) := h.alloc (.triplet default)
    (match interpret_condition tbl kv default mask smi with
    | .error e => .error e
    | .ok (t, m') =>
      .ok ((h1.set ta (.triplet t)).set outAddr
        (.node { node_type := .node_condition, condition := ta }), m'))
  | .unary oper e1 =>
    -- in case of identity, directly return sub expression
    if oper = .op_identity then build_bool_expr tbl e1 outAddr h mask smi
    else
      match syntax2conf_boolop oper with
      | .bool_err => .error ⟨EINVAL, "Unexpected boolean operator in expression"⟩
      | bop =>
        let (h1, c1) := h.alloc (.node default)
        (match build_bool_expr tbl e1 c1 h1 mask smi with
        | .error e => .error e
        | .ok (h2, m') =>
          let nd : BNode :=
            { node_type := .node_unary_expr, bool_op := bop, owner := true,
              expr1 := some c1, expr2 := none }
          .ok (h2.set outAddr (.node nd), m'))
  | .binary oper e1 e2 =>
    match syntax2conf_boolop oper with
    | .bool_err => .error ⟨EINVAL, "Unexpected boolean operator in expression"⟩
    | bop =>
      let (h1, c1) := h.alloc (.node default)
      (match build_bool_expr tbl e1 c1 h1 mask smi with
      | .error e => .error e
      | .ok (h2, m1) =>
        let (h3, c2) := h2.alloc (.node default)
        (match build_bool_expr tbl e2 c2 h3 m1 smi with
        | .error e => .error e
        | .ok (h4, m2) =>
          let nd : BNode :=
            { node_type := .node_binary_expr, bool_op := bop, owner := true,
              expr1 := some c1, expr2 := some c2 }
          .ok (h4.set outAddr (.node nd), m2)))
  | .other n =>
    .error ⟨EINVAL, s!"Invalid boolean node type {n} while parsing"⟩

/-! ### Set-expression builder (`build_set_expr`, lines 1428-1529) -/

/-- The class-lookup loop of the singleton case (lines 1437-1449): the
first registered file class whose identifier matches case-insensitively. -/
def findFileset (l : List FilesetItem) (name : String) : Option FilesetItem :=
  l.find? (fun fs => strcaseEq fs.fileset_id name)

/-- `build_set_expr`: build a boolean tree from a union/intersection/
negation of defined classes. A singleton shallow-copies the class's root
node struct and clears its owner flag; fresh interior nodes are
`owner := true`. -/
def build_set_expr (s : TypeSet) (outAddr : Nat) (h : Heap) (mask : Nat)
    (policies : List FilesetItem) : Except CfgErr (Heap × Nat) :=
  match s with
  | .singleton name =>
    (match findFileset policies name with
    | some fs =>
      -- *p_out_node = definition; the top level expression is not owner
      .ok (h.set outAddr (.node { fs.definition with owner := false }),
        mask ||| fs.attr_mask)
    | none => .error ⟨ENOENT, s!"FileClass '{name}' is undefined"⟩)
  | .negation oper s1 =>
    if oper ≠ .set_op_not then
      .error ⟨EINVAL, "Unexpected set operator in unary expression"⟩
    else
      let (h1, c1) := h.alloc (.node default)
      (match build_set_expr s1 c1 h1 mask policies with
      | .error e => .error e
      | .ok (h2, m') =>
        let nd : BNode :=
          { node_type := .node_unary_expr, bool_op := .bool_not, owner := true,
            expr1 := some c1, expr2 := none }
        .ok (h2.set outAddr (.node nd), m'))
  | .binary oper s1 s2 =>
    (match
      (match oper with
      | .set_op_union => some BoolOp.bool_or
      | .set_op_inter => some BoolOp.bool_and
      | _ => none) with
    | none => .error ⟨EINVAL, "Unexpected set operator in expression"⟩
    | some bop =>
      let (h1, c1) := h.alloc (.node default)
      (match build_set_expr s1 c1 h1 mask policies with
      | .error e => .error e
      | .ok (h2, m1) =>
        let (h3, c2) := h2.alloc (.node default)
        (match build_set_expr s2 c2 h3 m1 policies with
        | .error e => .error e
        | .ok (h4, m2) =>
          let nd : BNode :=
            { node_type := .node_binary_expr, bool_op := bop, owner := true,
              expr1 := some c1, expr2 := some c2 }
          .ok (h4.set outAddr (.node nd), m2))))

/-! ### `FreeBoolExpr` (lines 1393-1422) -/

/-- `FreeBoolExpr(p_expr, free_top_node)`: returns the list of addresses
passed to `free`, in order. A condition node frees its triplet
unconditionally; an interior node recurses into its children only when its
`owner` flag is set; the node itself is freed when `free_top` holds. The
recursion is fuelled because the heap is unstructured; every tree the
builders produce is freed in full with fuel at least its node count. A
NULL argument returns -EFAULT and frees nothing; an address holding no
node is undefined behaviour in C, modelled as freeing nothing. -/
def FreeBoolExpr (fuel : Nat) (h : Heap) (a : Option Nat) (freeTop : Bool) :
    List Nat :=
  match fuel with
  | 0 => []
  | fuel + 1 =>
    match a with
    | none => []
    | some addr =>
      match h.get addr with
      | some (.node n) =>
        (match n.node_type with
        | .node_condition => [n.condition]
        | .node_unary_expr =>
          if n.owner then FreeBoolExpr fuel h n.expr1 true else []
        | .node_binary_expr =>
          if n.owner then
            FreeBoolExpr fuel h n.expr1 true ++ FreeBoolExpr fuel h n.expr2 true
          else []) ++
        (if freeTop then [addr] else [])
      | _ => []

/-! ### Config-item tree and `GetBoolExpr` (lines 1335-1386) -/

/-- A node of the parsed configuration tree (`generic_item`): a named
block, a key/value item, a boolean expression or a set expression, each
carrying its source line. -/
inductive ConfigItem where
  | blockItem (name : String) (content : List ConfigItem) (line : Nat)
  | varItem (kv : TypeKeyValue) (line : Nat)
  | boolItem (e : TypeBoolExpr) (line : Nat)
  | setItem (s : TypeSet) (line : Nat)
deriving Repr

/-- Modelled from the spec: `rh_config_GetItemLine` (accessor from
`analyze.c`, outside the sources) — the item's source line. -/
def rh_config_GetItemLine : ConfigItem → Nat
  | .blockItem _ _ l => l
  | .varItem _ l => l
  | .boolItem _ l => l
  | .setItem _ l => l

/-- `GetBoolExpr` (lines 1335-1386): validate that the argument is a
non-empty block whose single child is a boolean expression, then run the
builder with the attribute mask reset to 0; a builder failure gets
`", line <n>"` appended to its message. -/
def GetBoolExpr (tbl : CritTable) (blk : Option ConfigItem)
    (block_name : String) (outAddr : Nat) (h : Heap)
    (smi : Option SmInstance) : Except CfgErr (Heap × Nat) :=
  match blk with
  | some (.blockItem _ content bline) =>
    (match content with
    | [] => .error ⟨ENOENT, s!"'{block_name}' block is empty, line {bline}"⟩
    | sub :: rest =>
      match sub with
      | .boolItem e sline =>
        if !rest.isEmpty then
          .error ⟨EINVAL,
            s!"A single boolean expression is expected in block '{block_name}', line {sline}"⟩
        else
          (match build_bool_expr tbl e outAddr h 0 smi with
          | .ok r => .ok r
          | .error er => .error ⟨er.rc, er.msg ++ s!", line {sline}"⟩)
      | sub2 =>
        let ln := rh_config_GetItemLine sub2
        .error ⟨EINVAL,
          s!"Boolean expression expected in block '{block_name}', line {ln}"⟩)
  | _ => .error ⟨EINVAL, s!"'{block_name}' is expected to be a block"⟩

end RbhCfg

namespace RbhCfg

/-! ### Scalar extractors (`Get*Param`, lines 225-843)

Each extractor returns an `errno`-style code, writes the parsed value into
a caller-supplied target and formats messages into a caller buffer; a
result record carries all three. `target` holds the caller's previous
value so that "target unchanged" is expressible. `sink` stands for the C
`extra_args_tab`/`nb_extra_args` pointers being non-NULL (the extras
themselves play no further role here). -/

structure ParamRes (α : Type) where
  rc : Nat
  target : α
  msg : String
deriving DecidableEq, Repr

/-- Modelled from the spec: `rh_config_GetItemByName` (accessor from
`analyze.c`, outside the sources) — case-insensitive lookup of a direct
child by variable or block name. -/
def rh_config_GetItemByName (blk : ConfigItem) (name : String) :
    Option ConfigItem :=
  match blk with
  | .blockItem _ content _ =>
    content.find? (fun it =>
      match it with
      | .varItem kv _ => strcaseEq kv.varname name
      | .blockItem bn _ _ => strcaseEq bn name
      | _ => false)
  | _ => none

/-- Modelled from the spec: `rh_config_GetKeyValue` (accessor from
`analyze.c`) — the `(name, value, has_extra_args)` triple of a key/value
item; fails on any other item kind. -/
def rh_config_GetKeyValue : ConfigItem → Option TypeKeyValue
  | .varItem kv _ => some kv
  | _ => none

/-- The "Missing mandatory parameter" message common to all extractors:
formatted only when `PFLG_MANDATORY` is set (the buffer was cleared on
entry), and `ENOENT` is returned in any case. -/
def missingParamMsg (blk : ConfigItem) (block_name var_name : String)
    (flags : Nat) : String :=
  if flags &&& PFLG_MANDATORY ≠ 0 then
    s!"Missing mandatory parameter '{var_name}' in block '{block_name}', line {rh_config_GetItemLine blk}"
  else ""

/-- The "Error retrieving parameter value" message (the C appends the
external parser's `rh_config_GetErrorMsg()` text, elided here). -/
def keyValueErrMsg (item : ConfigItem) (block_name var_name : String) :
    String :=
  s!"Error retrieving parameter value for '{block_name}::{var_name}', line {rh_config_GetItemLine item}:"

/-- The MAIL check of `GetStringParam` (lines 319-330): the first `@` must
exist and have text before it and after it. -/
def mailBad (s : String) : Bool :=
  let l := s.toList
  let pre := l.takeWhile (fun c => c ≠ '@')
  pre.length = l.length || pre.isEmpty || (l.drop (pre.length + 1)).isEmpty

/-- `GetStringParam` (lines 225-341). -/
def GetStringParam (blk : ConfigItem) (block_name var_name : String)
    (flags : Nat) (target : String) (target_size : Nat) (sink : Bool) :
    ParamRes String :=
  match rh_config_GetItemByName blk var_name with
  | none =>
    ⟨ENOENT, target, missingParamMsg blk block_name var_name flags⟩
  | some item =>
    match rh_config_GetKeyValue item with
    | none => ⟨EINVAL, target, keyValueErrMsg item block_name var_name⟩
    | some kv =>
      let line := rh_config_GetItemLine item
      let tgt := rh_strncpy kv.varvalue target_size
      if !kv.arg_list.isEmpty && !sink then
        ⟨EINVAL, tgt,
          s!"Unexpected options for parameter '{block_name}::{var_name}', line {line}"⟩
      else if flags &&& PFLG_NOT_EMPTY ≠ 0 && tgt = "" then
        ⟨EINVAL, tgt,
          s!"Unexpected empty parameter '{block_name}::{var_name}', line {line}"⟩
      else if flags &&& PFLG_STDIO_ALLOWED ≠ 0 &&
          (strcaseEq tgt "stdout" || strcaseEq tgt "stderr" || strcaseEq tgt "syslog") then
        ⟨0, tgt, ""⟩
      else if flags &&& PFLG_ABSOLUTE_PATH ≠ 0 && !isAbsolutePath tgt then
        ⟨EINVAL, tgt,
          s!"Absolute path expected for parameter '{block_name}::{var_name}', line {line}"⟩
      else if flags &&& PFLG_NO_WILDCARDS ≠ 0 && wildcardsIn tgt then
        ⟨EINVAL, tgt,
          s!"Wildcards are not allowed in '{block_name}::{var_name}', line {line}"⟩
      else if flags &&& PFLG_MAIL ≠ 0 && mailBad tgt then
        ⟨EINVAL, tgt,
          s!"Invalid mail address in '{block_name}::{var_name}', line {line}"⟩
      else if flags &&& PFLG_REMOVE_FINAL_SLASH ≠ 0 && finalSlash tgt then
        ⟨0, removeFinalSlash tgt, ""⟩
      else ⟨0, tgt, ""⟩

/-- `GetBoolParam` (lines 343-400). -/
def GetBoolParam (blk : ConfigItem) (block_name var_name : String)
    (flags : Nat) (target : Bool) (sink : Bool) : ParamRes Bool :=
  match rh_config_GetItemByName blk var_name with
  | none =>
    ⟨ENOENT, target, missingParamMsg blk block_name var_name flags⟩
  | some item =>
    match rh_config_GetKeyValue item with
    | none => ⟨EINVAL, target, keyValueErrMsg item block_name var_name⟩
    | some kv =>
      let line := rh_config_GetItemLine item
      let b := str2bool kv.varvalue
      if b = -1 then
        ⟨EINVAL, target,
          s!"Invalid value for '{block_name}::{var_name}', line {line}: boolean expected (0, 1, true, false, yes, no, enabled, disabled)"⟩
      else
        let tgt := b ≠ 0
        if !kv.arg_list.isEmpty && !sink then
          ⟨EINVAL, tgt,
            s!"Unexpected options for parameter '{block_name}::{var_name}', line {line}"⟩
        else ⟨0, tgt, ""⟩

/-- `GetDurationParam` (lines 409-483). -/
def GetDurationParam (blk : ConfigItem) (block_name var_name : String)
    (flags : Nat) (target : Int) (sink : Bool) : ParamRes Int :=
  match rh_config_GetItemByName blk var_name with
  | none =>
    ⟨ENOENT, target, missingParamMsg blk block_name var_name flags⟩
  | some item =>
    match rh_config_GetKeyValue item with
    | none => ⟨EINVAL, target, keyValueErrMsg item block_name var_name⟩
    | some kv =>
      let line := rh_config_GetItemLine item
      let timeval := str2duration kv.varvalue
      if timeval = -1 then
        ⟨EINVAL, target,
          s!"Invalid value for '{block_name}::{var_name}', line {line}: duration expected. Eg: 10s"⟩
      else if flags &&& PFLG_POSITIVE ≠ 0 && decide (timeval < 0) then
        ⟨EINVAL, target,
          s!"Positive value expected for '{block_name}::{var_name}', line {line}."⟩
      else if flags &&& PFLG_NOT_NULL ≠ 0 && timeval = 0 then
        ⟨EINVAL, target,
          s!"'{block_name}::{var_name}' must not be null, line {line}."⟩
      else if !kv.arg_list.isEmpty && !sink then
        ⟨EINVAL, timeval,
          s!"Unexpected options for parameter '{block_name}::{var_name}', line {line}"⟩
      else ⟨0, timeval, ""⟩

/-- `GetSizeParam` (lines 491-560). -/
def GetSizeParam (blk : ConfigItem) (block_name var_name : String)
    (flags : Nat) (target : Nat) (sink : Bool) : ParamRes Nat :=
  match rh_config_GetItemByName blk var_name with
  | none =>
    ⟨ENOENT, target, missingParamMsg blk block_name var_name flags⟩
  | some item =>
    match rh_config_GetKeyValue item with
    | none => ⟨EINVAL, target, keyValueErrMsg item block_name var_name⟩
    | some kv =>
      let line := rh_config_GetItemLine item
      let sizeval := str2size kv.varvalue
      if sizeval = 2 ^ 64 - 1 then
        ⟨EINVAL, target,
          s!"Invalid value for '{block_name}::{var_name}', line {line}: size expected. Eg: 10MB"⟩
      else if flags &&& PFLG_NOT_NULL ≠ 0 && sizeval = 0 then
        ⟨EINVAL, target,
          s!"'{block_name}::{var_name}' must not be null, line {line}."⟩
      else if !kv.arg_list.isEmpty && !sink then
        ⟨EINVAL, sizeval,
          s!"Unexpected options for parameter '{block_name}::{var_name}', line {line}"⟩
      else ⟨0, sizeval, ""⟩

/-- `GetIntParam` (lines 569-650). -/
def GetIntParam (blk : ConfigItem) (block_name var_name : String)
    (flags : Nat) (target : Int) (sink : Bool) : ParamRes Int :=
  match rh_config_GetItemByName blk var_name with
  | none =>
    ⟨ENOENT, target, missingParamMsg blk block_name var_name flags⟩
  | some item =>
    match rh_config_GetKeyValue item with
    | none => ⟨EINVAL, target, keyValueErrMsg item block_name var_name⟩
    | some kv =>
      let line := rh_config_GetItemLine item
      match scanInt kv.varvalue with
      | none =>
        ⟨EINVAL, target,
          s!"Invalid value for '{block_name}::{var_name}', line {line}: integer expected."⟩
      | some (intval, some tok) =>
        ⟨EINVAL, target,
          s!"Invalid value for '{block_name}::{var_name}', line {line}: extra characters '{tok}' found after integer {intval}."⟩
      | some (intval, none) =>
        if flags &&& PFLG_POSITIVE ≠ 0 && decide (intval < 0) then
          ⟨EINVAL, target,
            s!"Positive value expected for '{block_name}::{var_name}', line {line}."⟩
        else if flags &&& PFLG_NOT_NULL ≠ 0 && intval = 0 then
          ⟨EINVAL, target,
            s!"'{block_name}::{var_name}' must not be null, line {line}."⟩
        else if !kv.arg_list.isEmpty && !sink then
          ⟨EINVAL, intval,
            s!"Unexpected options for parameter '{block_name}::{var_name}', line {line}"⟩
        else ⟨0, intval, ""⟩

/-- The SI-suffix table of `GetInt64Param` (lines 703-722): the decimal
multiplier of a suffix token matched case-insensitively, `none` for an
illegal suffix. -/
def int64SuffixMult (tok : String) : Option Nat :=
  if strcaseEq tok "k" then some 1000
  else if strcaseEq tok "M" then some 1000000
  else if strcaseEq tok "G" then some 1000000000
  else if strcaseEq tok "T" then some 1000000000000
  else none

/-- `GetInt64Param` (lines 659-748): unsigned 64-bit integer with an
optional SI suffix; the multiplication wraps modulo 2^64 as unsigned C
arithmetic does. -/
def GetInt64Param (blk : ConfigItem) (block_name var_name : String)
    (flags : Nat) (target : Nat) (sink : Bool) : ParamRes Nat :=
  match rh_config_GetItemByName blk var_name with
  | none =>
    ⟨ENOENT, target, missingParamMsg blk block_name var_name flags⟩
  | some item =>
    match rh_config_GetKeyValue item with
    | none => ⟨EINVAL, target, keyValueErrMsg item block_name var_name⟩
    | some kv =>
      let line := rh_config_GetItemLine item
      match scanU64 kv.varvalue with
      | none =>
        ⟨EINVAL, target,
          s!"Invalid value for '{block_name}::{var_name}', line {line}: integer expected."⟩
      | some (v0, tok?) =>
        match
          (match tok? with
          | none => some v0
          | some tok => (int64SuffixMult tok).map (fun m => v0 * m % 2 ^ 64)) with
        | none =>
          let tokTxt := tok?.getD ""
          ⟨EINVAL, target,
            s!"Invalid suffix for '{block_name}::{var_name}', line {line}: '{tokTxt}'. Only 'k', 'M', 'G' or 'T' are allowed."⟩
        | some intval =>
          if flags &&& PFLG_NOT_NULL ≠ 0 && intval = 0 then
            ⟨EINVAL, target,
              s!"'{block_name}::{var_name}' must not be null, line {line}."⟩
          else if !kv.arg_list.isEmpty && !sink then
            ⟨EINVAL, intval,
              s!"Unexpected options for parameter '{block_name}::{var_name}', line {line}"⟩
          else ⟨0, intval, ""⟩

/-- `GetFloatParam` (lines 756-843). The C message prints the parsed value
with `%.2f`; the value is elided from the modelled message, which no
analysed property consults. -/
def GetFloatParam (blk : ConfigItem) (block_name var_name : String)
    (flags : Nat) (target : Rat) (sink : Bool) : ParamRes Rat :=
  match rh_config_GetItemByName blk var_name with
  | none =>
    ⟨ENOENT, target, missingParamMsg blk block_name var_name flags⟩
  | some item =>
    match rh_config_GetKeyValue item with
    | none => ⟨EINVAL, target, keyValueErrMsg item block_name var_name⟩
    | some kv =>
      let line := rh_config_GetItemLine item
      match scanFloat kv.varvalue with
      | none =>
        ⟨EINVAL, target,
          s!"Invalid value for '{block_name}::{var_name}', line {line}: float expected."⟩
      | some (v, tok?) =>
        let badTail :=
          match tok? with
          | none => false
          | some tok =>
            (flags &&& PFLG_ALLOW_PCT_SIGN = 0 && tok ≠ "") ||
            (flags &&& PFLG_ALLOW_PCT_SIGN ≠ 0 && tok ≠ "%")
        if badTail then
          let tokTxt := tok?.getD ""
          ⟨EINVAL, target,
            s!"Invalid value for '{block_name}::{var_name}', line {line}: extra characters '{tokTxt}' found after float."⟩
        else if flags &&& PFLG_POSITIVE ≠ 0 && decide (v < 0) then
          ⟨EINVAL, target,
            s!"Positive value expected for '{block_name}::{var_name}', line {line}."⟩
        else if flags &&& PFLG_NOT_NULL ≠ 0 && v = 0 then
          ⟨EINVAL, target,
            s!"'{block_name}::{var_name}' must not be null, line {line}."⟩
        else if !kv.arg_list.isEmpty && !sink then
          ⟨EINVAL, v,
            s!"Unexpected options for parameter '{block_name}::{var_name}', line {line}"⟩
        else ⟨0, v, ""⟩

end RbhCfg

namespace RbhCfg

/-! ### Shared lemmas -/

theorem heap_get_set_self (h : Heap) (a : Nat) (o : HObj) :
    (h.set a o).get a = some o := by
  simp [Heap.set, Heap.get, List.find?]

theorem rh_strncpy_eq_of_lt (s : String) (n : Nat) (h : s.length < n) :
    rh_strncpy s n = s := by
  unfold rh_strncpy
  have hl : s.toList.length ≤ n - 1 := by
    have : s.toList.length = s.length := by
      cases s; simp [String.length, String.toList]
    omega
  rw [List.take_of_length_le hl]
  cases s; rfl

theorem lor_submask_self (a b : Nat) : a ||| (a ||| b) = a ||| b := by
  rw [← Nat.lor_assoc, Nat.or_self]

theorem submask_trans {a b c : Nat} (h1 : a ||| b = b) (h2 : b ||| c = c) :
    a ||| c = c := by
  rw [← h2, ← Nat.lor_assoc, h1]

end RbhCfg

namespace RbhCfg

/-! ## Claim C8 -/

/-- C8: for every block and parameter name, when the named variable is
absent from the block, every scalar extractor (`GetStringParam`,
`GetBoolParam`, `GetIntParam`, `GetInt64Param`, `GetSizeParam`,
`GetDurationParam`, `GetFloatParam`) returns `NotFound` (`ENOENT`) and
leaves the target unchanged, and the error buffer holds
`Missing mandatory parameter '<var>' in block '<block>', line <n>` exactly
when `PFLG_MANDATORY` is set (it is empty otherwise). -/
theorem C8_missing_param (blk : ConfigItem) (bn vn : String) (flags : Nat)
    (sTgt : String) (n : Nat) (sk bTgt : Bool) (iTgt dTgt : Int)
    (szTgt i64Tgt : Nat) (fTgt : Rat)
    (habs : rh_config_GetItemByName blk vn = none) :
    GetStringParam blk bn vn flags sTgt n sk =
      ⟨ENOENT, sTgt, missingParamMsg blk bn vn flags⟩ ∧
    GetBoolParam blk bn vn flags bTgt sk =
      ⟨ENOENT, bTgt, missingParamMsg blk bn vn flags⟩ ∧
    GetIntParam blk bn vn flags iTgt sk =
      ⟨ENOENT, iTgt, missingParamMsg blk bn vn flags⟩ ∧
    GetInt64Param blk bn vn flags i64Tgt sk =
      ⟨ENOENT, i64Tgt, missingParamMsg blk bn vn flags⟩ ∧
    GetSizeParam blk bn vn flags szTgt sk =
      ⟨ENOENT, szTgt, missingParamMsg blk bn vn flags⟩ ∧
    GetDurationParam blk bn vn flags dTgt sk =
      ⟨ENOENT, dTgt, missingParamMsg blk bn vn flags⟩ ∧
    GetFloatParam blk bn vn flags fTgt sk =
      ⟨ENOENT, fTgt, missingParamMsg blk bn vn flags⟩ ∧
    (flags &&& PFLG_MANDATORY ≠ 0 → missingParamMsg blk bn vn flags =
      s!"Missing mandatory parameter '{vn}' in block '{bn}', line {rh_config_GetItemLine blk}") ∧
    (flags &&& PFLG_MANDATORY = 0 → missingParamMsg blk bn vn flags = "") := by
  refine ⟨?_, ?_, ?_, ?_, ?_, ?_, ?_, ?_, ?_⟩
  · simp [GetStringParam, habs]
  · simp [GetBoolParam, habs]
  · simp [GetIntParam, habs]
  · simp [GetInt64Param, habs]
  · simp [GetSizeParam, habs]
  · simp [GetDurationParam, habs]
  · simp [GetFloatParam, habs]
  · intro hm; simp [missingParamMsg, hm]
  · intro hm; simp [missingParamMsg, hm]

/-- Witness for C8: block `log { }` with descriptor
`{name="file", flags=MANDATORY|ABSOLUTE_PATH}` (spec scenario 1). -/
theorem C8_missing_param_witness :
    GetStringParam (.blockItem "log" [] 1) "log" "file"
        (PFLG_MANDATORY ||| PFLG_ABSOLUTE_PATH) "old" 256 false =
      ⟨ENOENT, "old",
        missingParamMsg (.blockItem "log" [] 1) "log" "file"
          (PFLG_MANDATORY ||| PFLG_ABSOLUTE_PATH)⟩ ∧
    missingParamMsg (.blockItem "log" [] 1) "log" "file"
        (PFLG_MANDATORY ||| PFLG_ABSOLUTE_PATH) =
      "Missing mandatory parameter 'file' in block 'log', line 1" :=
  ⟨(C8_missing_param (.blockItem "log" [] 1) "log" "file"
      (PFLG_MANDATORY ||| PFLG_ABSOLUTE_PATH) "old" 256 false false 0 0 0 0 0
      rfl).1,
   by rfl⟩

end RbhCfg

namespace RbhCfg

/-! ## Claim C9 -/

/-- C9 (amended): for a present parameter whose value string scans as
digits `n` (modulo 2^64) followed by an optional token — `sscanf` takes the
token to be the first whitespace-delimited word after the digits, ignoring
any later text — `GetInt64Param` stores `n` when there is no token,
stores `n` times 10^3 / 10^6 / 10^9 / 10^12 (modulo 2^64) when the token
matches `k` / `M` / `G` / `T` case-insensitively, and fails with `EINVAL`
leaving the target unchanged when the token is any other word; a value
with no leading digits also fails with `EINVAL` leaving the target
unchanged. -/
theorem C9_int64_suffix (blk : ConfigItem) (bn vn : String) (flags : Nat)
    (tgt : Nat) (sk : Bool) (item : ConfigItem) (kv : TypeKeyValue)
    (hit : rh_config_GetItemByName blk vn = some item)
    (hkv : rh_config_GetKeyValue item = some kv)
    (hargs : kv.arg_list = [])
    (hnn : flags &&& PFLG_NOT_NULL = 0) :
    (∀ n, scanU64 kv.varvalue = some (n, none) →
      GetInt64Param blk bn vn flags tgt sk = ⟨0, n, ""⟩) ∧
    (∀ n tok m, scanU64 kv.varvalue = some (n, some tok) →
      int64SuffixMult tok = some m →
      GetInt64Param blk bn vn flags tgt sk = ⟨0, n * m % 2 ^ 64, ""⟩) ∧
    (∀ n tok, scanU64 kv.varvalue = some (n, some tok) →
      int64SuffixMult tok = none →
      GetInt64Param blk bn vn flags tgt sk =
        ⟨EINVAL, tgt,
          s!"Invalid suffix for '{bn}::{vn}', line {rh_config_GetItemLine item}: '{tok}'. Only 'k', 'M', 'G' or 'T' are allowed."⟩) ∧
    (scanU64 kv.varvalue = none →
      GetInt64Param blk bn vn flags tgt sk =
        ⟨EINVAL, tgt,
          s!"Invalid value for '{bn}::{vn}', line {rh_config_GetItemLine item}: integer expected."⟩) := by
  refine ⟨?_, ?_, ?_, ?_⟩
  · intro n hscan
    simp [GetInt64Param, hit, hkv, hscan, hargs, hnn]
  · intro n tok m hscan hmult
    simp [GetInt64Param, hit, hkv, hscan, hmult, hargs, hnn]
  · intro n tok hscan hmult
    simp [GetInt64Param, hit, hkv, hscan, hmult]
  · intro hscan
    simp [GetInt64Param, hit, hkv, hscan]

/-- Witness for C9: `sz = 10 K` (suffix as a separate word, matched
case-insensitively) gives 10000. -/
theorem C9_int64_suffix_witness :
    GetInt64Param (.blockItem "b" [.varItem ⟨"sz", "10 K", .op_equal, []⟩ 3] 1)
      "b" "sz" 0 7 false = ⟨0, 10 * 1000 % 2 ^ 64, ""⟩ :=
  (C9_int64_suffix (.blockItem "b" [.varItem ⟨"sz", "10 K", .op_equal, []⟩ 3] 1)
    "b" "sz" 0 7 false (.varItem ⟨"sz", "10 K", .op_equal, []⟩ 3)
    ⟨"sz", "10 K", .op_equal, []⟩ rfl rfl rfl rfl).2.1 10 "K" 1000 rfl rfl

/-- Counterexample for C9 as stated: the value `10k x` has the non-empty
trailing text `k x` after the digits, which is not a bare SI suffix, yet
`GetInt64Param` succeeds (returns 0, not `EINVAL`) and stores 10000:
`sscanf` reads only the first word `k` after the digits and the rest is
silently ignored. -/
theorem C9_int64_suffix_cex :
    GetInt64Param (.blockItem "b" [.varItem ⟨"sz", "10k x", .op_equal, []⟩ 3] 1)
      "b" "sz" 0 7 false = ⟨0, 10000, ""⟩ := by
  rfl

end RbhCfg

namespace RbhCfg

/-! ## Claim C10 -/

/-- C10: for every condition on an integer-typed or duration-typed
criterion whose value string parses to -1 (for example the literal `-1`),
`criteria2condition` reports a parse error (`EINVAL`) and produces no
triplet, because -1 is also the error sentinel of `str2int` and
`str2duration`. -/
theorem C10_minus_one_sentinel :
    (∀ (kv : TypeKeyValue) (t0 : CompareTriplet) (mask0 : Nat)
        (crit : CompareCriteria) (am flags : Nat) (smi : Option SmInstance),
      flags &&& PFLG_STATUS = 0 →
      str2int kv.varvalue = -1 →
      criteria2condition kv t0 mask0 crit .pt_int am flags smi =
        .error ⟨EINVAL, s!"{kv.varname} criteria: integer expected: '{kv.varvalue}'"⟩) ∧
    (∀ (kv : TypeKeyValue) (t0 : CompareTriplet) (mask0 : Nat)
        (crit : CompareCriteria) (am flags : Nat) (smi : Option SmInstance),
      flags &&& PFLG_STATUS = 0 →
      str2duration kv.varvalue = -1 →
      criteria2condition kv t0 mask0 crit .pt_duration am flags smi =
        .error ⟨EINVAL, s!"{kv.varname} criteria: duration expected: '{kv.varvalue}'"⟩) := by
  constructor
  · intro kv t0 mask0 crit am flags smi hst hval
    simp [criteria2condition, c2c_value_switch, hst, hval]
  · intro kv t0 mask0 crit am flags smi hst hval
    simp [criteria2condition, c2c_value_switch, hst, hval]

/-- Witness for C10: the syntactically valid literal `-1` as a depth and as
a last-modification value is rejected as malformed. -/
theorem C10_minus_one_sentinel_witness :
    str2int "-1" = -1 ∧ str2duration "-1" = -1 ∧
    criteria2condition ⟨"depth", "-1", .op_equal, []⟩ {} 0 .crit_depth .pt_int
        0 PFLG_COMPARABLE none =
      .error ⟨EINVAL, "depth criteria: integer expected: '-1'"⟩ ∧
    criteria2condition ⟨"last_mod", "-1", .op_gt, []⟩ {} 0 .crit_last_mod
        .pt_duration 0 PFLG_COMPARABLE none =
      .error ⟨EINVAL, "last_mod criteria: duration expected: '-1'"⟩ :=
  ⟨rfl, rfl,
   C10_minus_one_sentinel.1 ⟨"depth", "-1", .op_equal, []⟩ {} 0 .crit_depth 0
     PFLG_COMPARABLE none rfl rfl,
   C10_minus_one_sentinel.2 ⟨"last_mod", "-1", .op_gt, []⟩ {} 0 .crit_last_mod 0
     PFLG_COMPARABLE none rfl rfl⟩

end RbhCfg

namespace RbhCfg

/-! ## Claim C1 -/

/-- Scenario 5 of the spec: the set expression `(hot union cold) and not
cold`. -/
def scenario5_set : TypeSet :=
  .binary .set_op_inter
    (.binary .set_op_union (.singleton "hot") (.singleton "cold"))
    (.negation .set_op_not (.singleton "cold"))

/-- The caller's heap before `build_set_expr`: the output root node lives
at address 0 and every class-owned object (definition-internal nodes and
triplets) lives below address 10, so the builder's fresh allocations start
at 10. -/
def scenario5_heap : Heap := ⟨[(0, .node default)], 10⟩

/-- The file-class table of scenario 5: classes `hot` and `cold` with root
definition node structs `d_hot`, `d_cold` and attribute masks `m1`, `m2`. -/
def scenario5_policies (d_hot d_cold : BNode) (m1 m2 : Nat) :
    List FilesetItem :=
  [⟨"hot", d_hot, m1⟩, ⟨"cold", d_cold, m2⟩]

/-- Build the scenario-5 tree into the root at address 0 and return the
list of addresses `FreeBoolExpr(root, true)` frees, or `none` when the
build fails. -/
def scenario5_freed (d_hot d_cold : BNode) (m1 m2 : Nat) : Option (List Nat) :=
  match build_set_expr scenario5_set 0 scenario5_heap 0
      (scenario5_policies d_hot d_cold m1 m2) with
  | .ok (hf, _) => some (FreeBoolExpr 16 hf (some 0) true)
  | .error _ => none

/-- C1 (amended): on the scenario-5 tree `AND(OR(hot, cold), NOT(cold))`,
`FreeBoolExpr(root, true)` frees exactly the five nodes freshly allocated
by the set-expression builder (the OR node at 10, the two class-reference
copies at 11 and 12, the NOT node at 13 and the class-reference copy at
14) plus the root node at 0, and nothing else — in particular no object of
the class-owned region below address 10 — *provided* each referenced
class's definition root is an interior (unary or binary) node. (When a
class's definition is a single CONDITION leaf the shared triplet is freed
too; see the counterexample.) -/
theorem C1_free_scenario5 (d_hot d_cold : BNode) (m1 m2 : Nat)
    (h1 : d_hot.node_type ≠ .node_condition)
    (h2 : d_cold.node_type ≠ .node_condition) :
    scenario5_freed d_hot d_cold m1 m2 = some [11, 12, 10, 14, 13, 0] := by
  obtain ⟨nt1, c1, b1, o1, x1, y1⟩ := d_hot
  obtain ⟨nt2, c2, b2, o2, x2, y2⟩ := d_cold
  cases nt1 <;> cases nt2 <;>
    first
    | exact absurd rfl h1
    | exact absurd rfl h2
    | rfl

/-- Witness for C1 at concrete interior-rooted class definitions. -/
theorem C1_free_scenario5_witness :
    scenario5_freed
      ⟨.node_binary_expr, 0, .bool_or, true, some 2, some 3⟩
      ⟨.node_unary_expr, 0, .bool_not, true, some 4, none⟩ 1 2 =
      some [11, 12, 10, 14, 13, 0] :=
  C1_free_scenario5 _ _ 1 2 (by simp) (by simp)

/-- Counterexample for C1 as stated: with class `cold` defined by a single
CONDITION leaf whose triplet lives at the class-owned address 5,
`FreeBoolExpr(root, true)` frees eight objects, among them the class's
triplet at address 5 — an object reachable from the file-class definition
— and frees it twice (`cold` is referenced twice in the expression), a
double free. The claim's "exactly the three freshly allocated interior
nodes and nothing else" also fails on the owner-interior case, where six
node structs are freed (the three class-reference copies and the root in
addition to OR and NOT). -/
theorem C1_free_scenario5_cex :
    scenario5_freed
      ⟨.node_binary_expr, 0, .bool_or, true, some 2, some 3⟩
      ⟨.node_condition, 5, .bool_err, true, none, none⟩ 1 2 =
      some [11, 5, 12, 10, 5, 14, 13, 0] ∧
    ((scenario5_freed
      ⟨.node_binary_expr, 0, .bool_or, true, some 2, some 3⟩
      ⟨.node_condition, 5, .bool_err, true, none, none⟩ 1 2).getD []).count 5 = 2 :=
  ⟨rfl, rfl⟩

end RbhCfg

namespace RbhCfg

/-! ## Claim C3 -/

/-- C3: the set-expression builder resolves a singleton's class name
case-insensitively in the file-class table; on a hit the output node is a
shallow copy of the class's root node with `owner := false` and the class's
pre-computed attribute mask is OR-ed into the running mask; on a miss it
returns `UndefinedClass` (`ENOENT`). A UNION builds `BINARY(OR, l, r)`, an
INTER builds `BINARY(AND, l, r)` and a NOT builds `UNARY(NOT, child)`,
each freshly built interior node having `owner = true`. -/
theorem C3_set_expr_shape :
    (∀ (l : List FilesetItem) (n : String),
      findFileset l n = l.find? (fun fs => lowerStr fs.fileset_id == lowerStr n)) ∧
    (∀ (name : String) (out : Nat) (h : Heap) (mask : Nat)
        (pol : List FilesetItem) (fs : FilesetItem),
      findFileset pol name = some fs →
      build_set_expr (.singleton name) out h mask pol =
        .ok (h.set out (.node { fs.definition with owner := false }),
          mask ||| fs.attr_mask)) ∧
    (∀ (name : String) (out : Nat) (h : Heap) (mask : Nat)
        (pol : List FilesetItem),
      findFileset pol name = none →
      build_set_expr (.singleton name) out h mask pol =
        .error ⟨ENOENT, s!"FileClass '{name}' is undefined"⟩) ∧
    (∀ (s1 s2 : TypeSet) (out : Nat) (h : Heap) (mask : Nat)
        (pol : List FilesetItem) (h' : Heap) (m' : Nat),
      build_set_expr (.binary .set_op_union s1 s2) out h mask pol = .ok (h', m') →
      ∃ a b, h'.get out =
        some (.node ⟨.node_binary_expr, 0, .bool_or, true, some a, some b⟩)) ∧
    (∀ (s1 s2 : TypeSet) (out : Nat) (h : Heap) (mask : Nat)
        (pol : List FilesetItem) (h' : Heap) (m' : Nat),
      build_set_expr (.binary .set_op_inter s1 s2) out h mask pol = .ok (h', m') →
      ∃ a b, h'.get out =
        some (.node ⟨.node_binary_expr, 0, .bool_and, true, some a, some b⟩)) ∧
    (∀ (s1 : TypeSet) (out : Nat) (h : Heap) (mask : Nat)
        (pol : List FilesetItem) (h' : Heap) (m' : Nat),
      build_set_expr (.negation .set_op_not s1) out h mask pol = .ok (h', m') →
      ∃ a, h'.get out =
        some (.node ⟨.node_unary_expr, 0, .bool_not, true, some a, none⟩)) := by
  refine ⟨fun _ _ => rfl, ?_, ?_, ?_, ?_, ?_⟩
  · intro name out h mask pol fs hfind
    simp [build_set_expr, hfind]
  · intro name out h mask pol hfind
    simp [build_set_expr, hfind]
  · intro s1 s2 out h mask pol h' m' hok
    simp only [build_set_expr] at hok
    rcases hb1 : build_set_expr s1 (h.alloc (HObj.node default)).2
        (h.alloc (HObj.node default)).1 mask pol with e1 | ⟨h2, m1⟩ <;>
      rw [hb1] at hok <;> dsimp only at hok
    · exact absurd hok (by simp)
    · rcases hb2 : build_set_expr s2 (h2.alloc (HObj.node default)).2
          (h2.alloc (HObj.node default)).1 m1 pol with e2 | ⟨h4, m2⟩ <;>
        rw [hb2] at hok <;> dsimp only at hok
      · exact absurd hok (by simp)
      · simp only [Except.ok.injEq, Prod.mk.injEq] at hok
        obtain ⟨rfl, rfl⟩ := hok
        exact ⟨_, _, heap_get_set_self _ _ _⟩
  · intro s1 s2 out h mask pol h' m' hok
    simp only [build_set_expr] at hok
    rcases hb1 : build_set_expr s1 (h.alloc (HObj.node default)).2
        (h.alloc (HObj.node default)).1 mask pol with e1 | ⟨h2, m1⟩ <;>
      rw [hb1] at hok <;> dsimp only at hok
    · exact absurd hok (by simp)
    · rcases hb2 : build_set_expr s2 (h2.alloc (HObj.node default)).2
          (h2.alloc (HObj.node default)).1 m1 pol with e2 | ⟨h4, m2⟩ <;>
        rw [hb2] at hok <;> dsimp only at hok
      · exact absurd hok (by simp)
      · simp only [Except.ok.injEq, Prod.mk.injEq] at hok
        obtain ⟨rfl, rfl⟩ := hok
        exact ⟨_, _, heap_get_set_self _ _ _⟩
  · intro s1 out h mask pol h' m' hok
    simp only [build_set_expr, if_neg (by simp : ¬SetOp.set_op_not ≠ SetOp.set_op_not)] at hok
    rcases hb1 : build_set_expr s1 (h.alloc (HObj.node default)).2
        (h.alloc (HObj.node default)).1 mask pol with e1 | ⟨h2, m1⟩ <;>
      rw [hb1] at hok <;> dsimp only at hok
    · exact absurd hok (by simp)
    · simp only [Except.ok.injEq, Prod.mk.injEq] at hok
      obtain ⟨rfl, rfl⟩ := hok
      exact ⟨_, heap_get_set_self _ _ _⟩

/-- Witness for C3: scenario-5's classes, hitting `HOT` case-insensitively,
missing `warm`, and the three interior-node constructions. -/
theorem C3_set_expr_shape_witness :
    build_set_expr (.singleton "HOT") 0 scenario5_heap 4
        (scenario5_policies ⟨.node_unary_expr, 0, .bool_not, true, some 2, none⟩
          ⟨.node_condition, 5, .bool_err, true, none, none⟩ 1 2) =
      .ok (scenario5_heap.set 0
        (.node ⟨.node_unary_expr, 0, .bool_not, false, some 2, none⟩), 4 ||| 1) ∧
    build_set_expr (.singleton "warm") 0 scenario5_heap 4
        (scenario5_policies ⟨.node_unary_expr, 0, .bool_not, true, some 2, none⟩
          ⟨.node_condition, 5, .bool_err, true, none, none⟩ 1 2) =
      .error ⟨ENOENT, "FileClass 'warm' is undefined"⟩ ∧
    (∃ a b, (Heap.get
      (match build_set_expr (.binary .set_op_union (.singleton "hot") (.singleton "cold")) 0
          scenario5_heap 0
          (scenario5_policies ⟨.node_unary_expr, 0, .bool_not, true, some 2, none⟩
            ⟨.node_condition, 5, .bool_err, true, none, none⟩ 1 2) with
        | .ok (h', _) => h'
        | .error _ => scenario5_heap) 0) =
      some (.node ⟨.node_binary_expr, 0, .bool_or, true, some a, some b⟩)) := by
  refine ⟨?_, ?_, ?_⟩
  · exact C3_set_expr_shape.2.1 "HOT" 0 scenario5_heap 4
      (scenario5_policies ⟨.node_unary_expr, 0, .bool_not, true, some 2, none⟩
        ⟨.node_condition, 5, .bool_err, true, none, none⟩ 1 2)
      ⟨"hot", ⟨.node_unary_expr, 0, .bool_not, true, some 2, none⟩, 1⟩ rfl
  · exact C3_set_expr_shape.2.2.1 "warm" 0 scenario5_heap 4
      (scenario5_policies ⟨.node_unary_expr, 0, .bool_not, true, some 2, none⟩
        ⟨.node_condition, 5, .bool_err, true, none, none⟩ 1 2) rfl
  · obtain ⟨a, b, hab⟩ := C3_set_expr_shape.2.2.2.1
      (.singleton "hot") (.singleton "cold") 0 scenario5_heap 0
      (scenario5_policies ⟨.node_unary_expr, 0, .bool_not, true, some 2, none⟩
        ⟨.node_condition, 5, .bool_err, true, none, none⟩ 1 2) _ _ rfl
    exact ⟨a, b, hab⟩

end RbhCfg

namespace RbhCfg

/-! ## Claim C7 -/

/-- C7: `GetBoolExpr` fails without invoking the recursive builder when its
argument is NULL or not a block, an empty block (`ENOENT`), a block whose
first child is not a boolean expression, or a block with several children;
it invokes the builder exactly when the block holds a single `BOOL_EXPR`
child, and a non-zero builder result is propagated with
`", line <n>"` (the expression's source line) appended to the message. -/
theorem C7_get_bool_expr (tbl : CritTable) (bn : String) (out : Nat)
    (h : Heap) (smi : Option SmInstance) :
    (GetBoolExpr tbl none bn out h smi =
      .error ⟨EINVAL, s!"'{bn}' is expected to be a block"⟩) ∧
    (∀ kv l, GetBoolExpr tbl (some (.varItem kv l)) bn out h smi =
      .error ⟨EINVAL, s!"'{bn}' is expected to be a block"⟩) ∧
    (∀ e l, GetBoolExpr tbl (some (.boolItem e l)) bn out h smi =
      .error ⟨EINVAL, s!"'{bn}' is expected to be a block"⟩) ∧
    (∀ st l, GetBoolExpr tbl (some (.setItem st l)) bn out h smi =
      .error ⟨EINVAL, s!"'{bn}' is expected to be a block"⟩) ∧
    (∀ n l, GetBoolExpr tbl (some (.blockItem n [] l)) bn out h smi =
      .error ⟨ENOENT, s!"'{bn}' block is empty, line {l}"⟩) ∧
    (∀ n sub rest l, (∀ e sl, sub ≠ .boolItem e sl) →
      GetBoolExpr tbl (some (.blockItem n (sub :: rest) l)) bn out h smi =
        .error ⟨EINVAL,
          s!"Boolean expression expected in block '{bn}', line {rh_config_GetItemLine sub}"⟩) ∧
    (∀ n e sl r rest l,
      GetBoolExpr tbl (some (.blockItem n (.boolItem e sl :: r :: rest) l)) bn out h smi =
        .error ⟨EINVAL,
          s!"A single boolean expression is expected in block '{bn}', line {sl}"⟩) ∧
    (∀ n e sl l,
      GetBoolExpr tbl (some (.blockItem n [.boolItem e sl] l)) bn out h smi =
        match build_bool_expr tbl e out h 0 smi with
        | .ok r => .ok r
        | .error er => .error ⟨er.rc, er.msg ++ s!", line {sl}"⟩) := by
  refine ⟨rfl, fun kv l => rfl, fun e l => rfl, fun st l => rfl, fun n l => rfl,
    ?_, fun n e sl r rest l => rfl, fun n e sl l => rfl⟩
  intro n sub rest l hnb
  cases sub with
  | blockItem bn2 c2 l2 => rfl
  | varItem kv2 l2 => rfl
  | setItem st2 l2 => rfl
  | boolItem e2 l2 => exact absurd rfl (hnb e2 l2)

/-- Witness for C7: a block whose first child is a key/value item is
rejected without running the builder. -/
theorem C7_get_bool_expr_witness :
    GetBoolExpr ⟨fun _ => none, fun _ => ⟨.pt_string, 0, 0⟩⟩
        (some (.blockItem "scope" [.varItem ⟨"a", "b", .op_equal, []⟩ 7] 2))
        "scope" 0 scenario5_heap none =
      .error ⟨EINVAL, "Boolean expression expected in block 'scope', line 7"⟩ :=
  (C7_get_bool_expr ⟨fun _ => none, fun _ => ⟨.pt_string, 0, 0⟩⟩ "scope" 0
      scenario5_heap none).2.2.2.2.2.1 "scope"
    (.varItem ⟨"a", "b", .op_equal, []⟩ 7) [] 2 (fun e sl => by simp)

end RbhCfg

namespace RbhCfg

/-! ## Claim C4 -/

/-- The operator produced by the `PT_STRING` arm: the comparator set before
the switch is rewritten to `LIKE` when it is `==` and the value holds a
wildcard, to `UNLIKE` when it is `!=` and the value holds a wildcard, and
is kept otherwise (lines 1003-1017). -/
theorem c2c_string_case_op (kv : TypeKeyValue) (t : CompareTriplet)
    (flags : Nat) (smi : Option SmInstance) (t' : CompareTriplet)
    (h : c2c_string_case kv t flags smi = .ok t') :
    t'.op =
      if wildcardsIn kv.varvalue then
        (if t.op = .comp_equal then .comp_like
         else if t.op = .comp_diff then .comp_unlike
         else t.op)
      else t.op := by
  unfold c2c_string_case at h
  split at h
  · exact Except.noConfusion h
  split at h
  · exact Except.noConfusion h
  split at h
  case _ e heq => exact Except.noConfusion h
  case _ t1 heq =>
    have hop2 : t'.op = t1.op := by
      dsimp only at h
      repeat' (split at h)
      all_goals
        first
        | exact Except.noConfusion h
        | (injection h with h2; rw [← h2])
    rw [hop2]
    repeat' (split at heq)
    all_goals
      first
      | exact Except.noConfusion heq
      | (injection heq with h3; rw [← h3]; simp_all)

/-- C4: for every string-typed condition the criteria compiler accepts,
the stored operator is `LIKE` exactly when the syntactic operator is `==`
and the value holds one of the wildcards `*`, `?`, `[` (success already
implies `PFLG_NO_WILDCARDS` permits them), `UNLIKE` exactly when the
syntactic operator is `!=` under the same wildcard condition, and in all
other cases — a wildcard-free value, or any syntactic operator other than
`==`/`!=` even with wildcards — the stored operator is the direct map of
the syntactic operator (last conjunct: the complete characterization). -/
theorem C4_operator_rewrite (kv : TypeKeyValue) (t0 : CompareTriplet)
    (mask0 : Nat) (crit : CompareCriteria) (am flags : Nat)
    (smi : Option SmInstance) (t : CompareTriplet) (m : Nat)
    (h : criteria2condition kv t0 mask0 crit .pt_string am flags smi = .ok (t, m)) :
    (t.op = .comp_like ↔ kv.op_type = .op_equal ∧ wildcardsIn kv.varvalue = true) ∧
    (t.op = .comp_unlike ↔ kv.op_type = .op_diff ∧ wildcardsIn kv.varvalue = true) ∧
    (wildcardsIn kv.varvalue = false → t.op = syntax2conf_comparator kv.op_type) ∧
    (t.op =
      if wildcardsIn kv.varvalue = true ∧ kv.op_type = .op_equal then
        .comp_like
      else if wildcardsIn kv.varvalue = true ∧ kv.op_type = .op_diff then
        .comp_unlike
      else syntax2conf_comparator kv.op_type) := by
  unfold criteria2condition at h
  split at h
  · exact Except.noConfusion h
  case _ mask1 hm =>
    dsimp only at h
    split at h
    · exact Except.noConfusion h
    case _ t2 hval =>
      split at h
      · exact Except.noConfusion h
      case _ u hcmp =>
        injection h with h2
        obtain ⟨rfl, rfl⟩ := Prod.mk.injEq .. ▸ h2
        unfold c2c_value_switch at hval
        have hop := c2c_string_case_op _ _ _ _ _ hval
        cases hkv : kv.op_type <;>
          rw [hkv] at hop <;>
          by_cases hw : wildcardsIn kv.varvalue <;>
          simp_all [syntax2conf_comparator]

/-- Witness for C4: `path == "*.log"` compiles with operator `LIKE`,
`filename != "x.log"` (wildcard-free) keeps `!=`, and `path > "*foo"` —
a wildcard value with an ordering operator, compilable under
`PFLG_COMPARABLE` — keeps the direct map `>`. -/
theorem C4_operator_rewrite_witness :
    (({ crit := .crit_path, op := .comp_like, val := { str := "*.log" },
        xattr_name := "", flags := 0 } : CompareTriplet).op = .comp_like ↔
      (Operator.op_equal = .op_equal ∧ wildcardsIn "*.log" = true)) ∧
    (wildcardsIn "x.log" = false →
      ({ crit := .crit_filename, op := .comp_diff, val := { str := "x.log" },
         xattr_name := "", flags := 0 } : CompareTriplet).op =
        syntax2conf_comparator .op_diff) ∧
    ({ crit := .crit_path, op := .comp_grthan, val := { str := "*foo" },
       xattr_name := "", flags := 0 } : CompareTriplet).op =
      syntax2conf_comparator .op_gt :=
  ⟨(C4_operator_rewrite ⟨"path", "*.log", .op_equal, []⟩ {} 0 .crit_path 1 0
      none _ _ rfl).1,
   (C4_operator_rewrite ⟨"filename", "x.log", .op_diff, []⟩ {} 0 .crit_filename
      1 0 none _ _ rfl).2.2.1,
   (C4_operator_rewrite ⟨"path", "*foo", .op_gt, []⟩ {} 0 .crit_path 1
      PFLG_COMPARABLE none _ _ rfl).2.2.2⟩

end RbhCfg

namespace RbhCfg

/-! ## Claim C2 -/

/-- A successful `process_any_level_condition` means every `**` was flanked
by `/` where not at a boundary, and returns the value with non-escaped `?`
rewritten to `[!/]` and `**` rewritten to `*`. -/
theorem pale_ok_iff (s : String) (s' : String)
    (h : process_any_level_condition s = .ok s') :
    checkFlanksB none s.toList = true ∧
    s' = ⟨replaceDstar (replaceQm s.toList)⟩ := by
  unfold process_any_level_condition at h
  split at h
  case _ hc => exact ⟨hc, by injection h with h2; rw [← h2]⟩
  case _ => exact Except.noConfusion h

/-- A failing `process_any_level_condition` fails with `EINVAL`. -/
theorem pale_err_rc (s : String) (e : CfgErr)
    (h : process_any_level_condition s = .error e) : e.rc = EINVAL := by
  unfold process_any_level_condition at h
  split at h
  · exact Except.noConfusion h
  · injection h with h2; rw [← h2]

/-- Every failure of the `PT_STRING` arm carries `EINVAL`. -/
theorem c2c_string_case_err_rc (kv : TypeKeyValue) (t : CompareTriplet)
    (flags : Nat) (smi : Option SmInstance) (e : CfgErr)
    (h : c2c_string_case kv t flags smi = .error e) : e.rc = EINVAL := by
  unfold c2c_string_case at h
  split at h
  case _ => injection h with h2; rw [← h2]
  split at h
  case _ => injection h with h2; rw [← h2]
  split at h
  case _ e1 heq =>
    injection h with h2
    subst h2
    repeat' (split at heq)
    all_goals
      first
      | exact Except.noConfusion heq
      | (injection heq with h3; rw [← h3])
  case _ t1 heq =>
    dsimp only at h
    repeat' (split at h)
    all_goals
      first
      | exact Except.noConfusion h
      | (injection h with h2; subst h2; exact pale_err_rc _ _ (by assumption))
      | (injection h with h2; rw [← h2])

/-- A failing comparability check carries `EINVAL`. -/
theorem comparator_check_err_rc (vn : String) (flags : Nat)
    (op : CompareDirection) (e : CfgErr)
    (h : comparator_check vn flags op = .error e) : e.rc = EINVAL := by
  unfold comparator_check at h
  split at h
  · injection h with h2; rw [← h2]
  · exact Except.noConfusion h

/-- Every failure of the criteria compiler on a string-typed criterion
carries `EINVAL` (the `ENOTSUP` arm is unreachable for `PT_STRING`). -/
theorem c2c_pt_string_err_rc (kv : TypeKeyValue) (t0 : CompareTriplet)
    (mask0 : Nat) (crit : CompareCriteria) (am flags : Nat)
    (smi : Option SmInstance) (e : CfgErr)
    (h : criteria2condition kv t0 mask0 crit .pt_string am flags smi = .error e) :
    e.rc = EINVAL := by
  unfold criteria2condition at h
  split at h
  case _ e1 heq =>
    injection h with h2
    subst h2
    split at heq
    · split at heq
      · injection heq with h3; rw [← h3]
      · exact Except.noConfusion heq
    · exact Except.noConfusion heq
  case _ mask1 heq =>
    dsimp only at h
    split at h
    case _ e2 hval =>
      injection h with h2
      subst h2
      exact c2c_string_case_err_rc _ _ _ _ _ hval
    case _ t2 hval =>
      split at h
      case _ u hcmp =>
        injection h with h2
        subst h2
        exact comparator_check_err_rc _ _ _ _ hcmp
      case _ => exact Except.noConfusion h

/-- The `PT_STRING` arm on a value containing `**`, for a criterion that is
neither xattr nor status: it succeeds only through the any-level branch,
which requires `PFLG_ALLOW_ANY_DEPTH`, validates the `/` flanking of every
`**`, stores the rewritten value and sets the `ANY_LEVEL` triplet flag. -/
theorem c2c_string_case_anylevel (kv : TypeKeyValue) (t : CompareTriplet)
    (flags : Nat) (smi : Option SmInstance) (t' : CompareTriplet)
    (hx : flags &&& PFLG_XATTR = 0) (hs : flags &&& PFLG_STATUS = 0)
    (hlen : kv.varvalue.length < RBH_PATH_MAX)
    (hal : anyLevelMatch kv.varvalue = true)
    (h : c2c_string_case kv t flags smi = .ok t') :
    flags &&& PFLG_ALLOW_ANY_DEPTH ≠ 0 ∧
    checkFlanksB none kv.varvalue.toList = true ∧
    t'.val.str = ⟨replaceDstar (replaceQm kv.varvalue.toList)⟩ ∧
    t'.flags = t.flags ||| CMP_FLG_ANY_LEVEL := by
  have hcpy : rh_strncpy kv.varvalue RBH_PATH_MAX = kv.varvalue :=
    rh_strncpy_eq_of_lt _ _ hlen
  unfold c2c_string_case at h
  split at h
  · exact Except.noConfusion h
  split at h
  · exact Except.noConfusion h
  split at h
  case _ e heq => exact Except.noConfusion h
  case _ t1 heq =>
    have hfl : t1.flags = t.flags := by
      repeat' (split at heq)
      all_goals
        first
        | exact Except.noConfusion heq
        | (injection heq with h3; rw [← h3])
    dsimp only at h
    rw [hcpy] at h
    split at h
    case _ hxa => exact absurd hxa (by simp [hx])
    split at h
    case _ hst => exact absurd hst (by simp [hs])
    split at h
    case _ hallow =>
      split at h
      case _ e2 hps => exact Except.noConfusion h
      case _ s' hps =>
        injection h with h2
        obtain ⟨hflank, hs'⟩ := pale_ok_iff _ _ hps
        refine ⟨hallow, hflank, ?_, ?_⟩
        · rw [← h2, ← hs']
        · rw [← h2]
          dsimp only
          rw [hfl]
    case _ => exact Except.noConfusion h

/-- C2 (amended): for a string-typed criterion whose parsing flags include
neither `PFLG_XATTR` nor `PFLG_STATUS` (xattr and status values are exempt
from any-level processing) and whose value contains the any-level token
`**`: without `PFLG_ALLOW_ANY_DEPTH` compilation fails with `EINVAL`; with
it, compilation succeeds only when every `**` occurrence is flanked by `/`
on each side that is not a string boundary, and on success the stored
value is the input with every non-escaped `?` replaced by `[!/]` and every
`**` replaced by `*`, with the triplet's `ANY_LEVEL` flag set. -/
theorem C2_any_level (kv : TypeKeyValue) (t0 : CompareTriplet) (mask0 : Nat)
    (crit : CompareCriteria) (am flags : Nat) (smi : Option SmInstance)
    (hx : flags &&& PFLG_XATTR = 0) (hs : flags &&& PFLG_STATUS = 0)
    (hlen : kv.varvalue.length < RBH_PATH_MAX)
    (hal : anyLevelMatch kv.varvalue = true) :
    (flags &&& PFLG_ALLOW_ANY_DEPTH = 0 →
      ∃ e, criteria2condition kv t0 mask0 crit .pt_string am flags smi =
        .error e ∧ e.rc = EINVAL) ∧
    (∀ t m, criteria2condition kv t0 mask0 crit .pt_string am flags smi =
        .ok (t, m) →
      flags &&& PFLG_ALLOW_ANY_DEPTH ≠ 0 ∧
      checkFlanksB none kv.varvalue.toList = true ∧
      t.val.str = ⟨replaceDstar (replaceQm kv.varvalue.toList)⟩ ∧
      t.flags = t0.flags ||| CMP_FLG_ANY_LEVEL) := by
  have hok : ∀ t m, criteria2condition kv t0 mask0 crit .pt_string am flags smi =
      .ok (t, m) →
      flags &&& PFLG_ALLOW_ANY_DEPTH ≠ 0 ∧
      checkFlanksB none kv.varvalue.toList = true ∧
      t.val.str = ⟨replaceDstar (replaceQm kv.varvalue.toList)⟩ ∧
      t.flags = t0.flags ||| CMP_FLG_ANY_LEVEL := by
    intro t m h
    unfold criteria2condition at h
    split at h
    · exact Except.noConfusion h
    case _ mask1 heq =>
      dsimp only at h
      split at h
      · exact Except.noConfusion h
      case _ t2 hval =>
        split at h
        · exact Except.noConfusion h
        case _ u hcmp =>
          injection h with h2
          obtain ⟨rfl, rfl⟩ := Prod.mk.injEq .. ▸ h2
          unfold c2c_value_switch at hval
          dsimp only at hval
          exact c2c_string_case_anylevel kv
            { t0 with crit := crit, op := syntax2conf_comparator kv.op_type }
            flags smi t2 hx hs hlen hal hval
  refine ⟨?_, hok⟩
  intro hna
  cases hres : criteria2condition kv t0 mask0 crit .pt_string am flags smi with
  | error e => exact ⟨e, rfl, c2c_pt_string_err_rc _ _ _ _ _ _ _ _ hres⟩
  | ok p =>
    obtain ⟨hallow, -, -, -⟩ := hok p.1 p.2 (by rw [hres])
    exact absurd hna hallow

/-- Witness for C2: `path == "/data/**/tmp/*.log"` (spec scenario 3): with
`ALLOW_ANY_DEPTH` unset the compiler rejects with `EINVAL`; with it set the
compiler yields `{crit=PATH, op=LIKE, val="/data/*/tmp/*.log",
flags=ANY_LEVEL}`. -/
theorem C2_any_level_witness :
    (∃ e, criteria2condition ⟨"path", "/data/**/tmp/*.log", .op_equal, []⟩ {}
        0 .crit_path .pt_string 1 0 none = .error e ∧ e.rc = EINVAL) ∧
    criteria2condition ⟨"path", "/data/**/tmp/*.log", .op_equal, []⟩ {} 0
        .crit_path .pt_string 1 PFLG_ALLOW_ANY_DEPTH none =
      .ok ({ crit := .crit_path, op := .comp_like,
             val := { str := "/data/*/tmp/*.log" }, xattr_name := "",
             flags := CMP_FLG_ANY_LEVEL }, 1) :=
  ⟨(C2_any_level ⟨"path", "/data/**/tmp/*.log", .op_equal, []⟩ {} 0 .crit_path
      1 0 none rfl rfl (by decide) rfl).1 rfl,
   rfl⟩

/-- Counterexample for C2 as stated: an xattr criterion (`PFLG_XATTR`, no
`PFLG_ALLOW_ANY_DEPTH`) with a `**` in its value compiles successfully —
the any-level check is skipped entirely for xattr and status values
("don't care for xattr and status value", line 1040) — instead of failing
with `ConstraintViolated` as the unrestricted claim requires. -/
theorem C2_any_level_cex :
    criteria2condition ⟨"xattr.user", "a**b", .op_equal, []⟩ {} 0 .crit_xattr
        .pt_string 0 PFLG_XATTR none =
      .ok ({ crit := .crit_xattr, op := .comp_like, val := { str := "a**b" },
             xattr_name := "user", flags := 0 }, 0) := by
  rfl

end RbhCfg

namespace RbhCfg

/-! ## Claim C5 -/

/-- Passing the final comparability check without `PFLG_COMPARABLE` means
the (possibly rewritten) operator is one of `==`, `!=`, `LIKE`, `UNLIKE`. -/
theorem comparator_check_ok_op (vn : String) (flags : Nat)
    (op : CompareDirection) (u : Unit)
    (hc : flags &&& PFLG_COMPARABLE = 0)
    (h : comparator_check vn flags op = .ok u) :
    op = .comp_equal ∨ op = .comp_diff ∨ op = .comp_like ∨ op = .comp_unlike := by
  unfold comparator_check at h
  split at h
  · exact Except.noConfusion h
  case _ hcond =>
    simp [hc] at hcond
    tauto

/-- C5 (amended): for a criterion whose parsing flags lack
`PFLG_COMPARABLE`, compilation never succeeds with an operator (after
rewriting) outside `==`, `!=`, `LIKE`, `UNLIKE`; whenever the typed-value
phase succeeds — for every value type — the `InvalidOperator` error
(`EINVAL`, message `Illegal comparator for <name> criteria: == or !=
expected`) is returned exactly when the resulting operator is outside
that set (third conjunct); in particular a type criterion with a legal
file-type value and an ordering or command operator fails so, as for
`type > file`. (An earlier failure, such as a value parse error, preempts
the check: see the counterexample.) -/
theorem C5_non_comparable :
    (∀ (kv : TypeKeyValue) (t0 : CompareTriplet) (mask0 : Nat)
        (crit : CompareCriteria) (ptype : CfgParamType) (am flags : Nat)
        (smi : Option SmInstance) (t : CompareTriplet) (m : Nat),
      flags &&& PFLG_COMPARABLE = 0 →
      criteria2condition kv t0 mask0 crit ptype am flags smi = .ok (t, m) →
      t.op = .comp_equal ∨ t.op = .comp_diff ∨ t.op = .comp_like ∨
        t.op = .comp_unlike) ∧
    (∀ (kv : TypeKeyValue) (t0 : CompareTriplet) (mask0 : Nat)
        (crit : CompareCriteria) (am flags : Nat) (smi : Option SmInstance),
      flags &&& PFLG_COMPARABLE = 0 →
      flags &&& PFLG_STATUS = 0 →
      str2type kv.varvalue ≠ .tnone →
      (kv.op_type = .op_gt ∨ kv.op_type = .op_gt_eq ∨ kv.op_type = .op_lt ∨
        kv.op_type = .op_lt_eq ∨ kv.op_type = .op_cmd) →
      criteria2condition kv t0 mask0 crit .pt_type am flags smi =
        .error ⟨EINVAL,
          s!"Illegal comparator for {kv.varname} criteria: == or != expected"⟩) ∧
    (∀ (kv : TypeKeyValue) (t0 : CompareTriplet) (mask0 : Nat)
        (crit : CompareCriteria) (ptype : CfgParamType) (am flags : Nat)
        (smi : Option SmInstance) (t2 : CompareTriplet),
      flags &&& PFLG_COMPARABLE = 0 →
      flags &&& PFLG_STATUS = 0 →
      c2c_value_switch kv
          { t0 with crit := crit, op := syntax2conf_comparator kv.op_type }
          ptype flags smi = .ok t2 →
      ((t2.op ≠ .comp_equal ∧ t2.op ≠ .comp_diff ∧ t2.op ≠ .comp_like ∧
          t2.op ≠ .comp_unlike) →
        criteria2condition kv t0 mask0 crit ptype am flags smi =
          .error ⟨EINVAL,
            s!"Illegal comparator for {kv.varname} criteria: == or != expected"⟩) ∧
      ((t2.op = .comp_equal ∨ t2.op = .comp_diff ∨ t2.op = .comp_like ∨
          t2.op = .comp_unlike) →
        criteria2condition kv t0 mask0 crit ptype am flags smi =
          .ok (t2, (mask0 ||| am) ||| am))) := by
  refine ⟨?_, ?_, ?_⟩
  · intro kv t0 mask0 crit ptype am flags smi t m hc h
    unfold criteria2condition at h
    split at h
    · exact Except.noConfusion h
    case _ mask1 heq =>
      dsimp only at h
      split at h
      · exact Except.noConfusion h
      case _ t2 hval =>
        split at h
        · exact Except.noConfusion h
        case _ u hcmp =>
          injection h with h2
          obtain ⟨rfl, rfl⟩ := Prod.mk.injEq .. ▸ h2
          exact comparator_check_ok_op _ _ _ _ hc hcmp
  · intro kv t0 mask0 crit am flags smi hc hs htv hop
    unfold criteria2condition c2c_value_switch comparator_check
    rcases hop with h | h | h | h | h <;>
      simp [hs, htv, h, syntax2conf_comparator, hc]
  · intro kv t0 mask0 crit ptype am flags smi t2 hc hs hval
    have hsv : ¬flags &&& PFLG_STATUS ≠ 0 := by simp [hs]
    unfold criteria2condition
    rw [if_neg hsv]
    dsimp only
    rw [hval]
    dsimp only
    unfold comparator_check
    constructor
    · rintro ⟨h1, h2, h3, h4⟩
      rw [if_pos (by simp [hc, h1, h2, h3, h4])]
    · intro hin
      rw [if_neg (by simp [hc]; tauto)]

/-- Witness for C5: `type > file` (spec scenario 6) is rejected with
`Illegal comparator for type criteria: == or != expected`, and the string
case `path > "abc"` — where the typed-value phase succeeds — is rejected
with the same message shape. -/
theorem C5_non_comparable_witness :
    criteria2condition ⟨"type", "file", .op_gt, []⟩ {} 0 .crit_type .pt_type
        4 0 none =
      .error ⟨EINVAL, "Illegal comparator for type criteria: == or != expected"⟩ ∧
    criteria2condition ⟨"path", "abc", .op_gt, []⟩ {} 0 .crit_path .pt_string
        1 0 none =
      .error ⟨EINVAL, "Illegal comparator for path criteria: == or != expected"⟩ :=
  ⟨C5_non_comparable.2.1 ⟨"type", "file", .op_gt, []⟩ {} 0 .crit_type 4 0 none
     rfl rfl (by decide) (Or.inl rfl),
   (C5_non_comparable.2.2 ⟨"path", "abc", .op_gt, []⟩ {} 0 .crit_path
       .pt_string 1 0 none
       ⟨.crit_path, .comp_grthan, { str := "abc" }, "", 0⟩ rfl rfl rfl).1
     (by decide)⟩

/-- Counterexample for C5 as stated: on a non-comparable integer criterion
with operator `>` — an operator outside `==`/`!=`/`LIKE`/`UNLIKE` — and the
unparsable value `abc`, compilation does not return `InvalidOperator`: the
value parse error preempts the comparability check, so the claimed
equivalence ("returns InvalidOperator iff the operator is outside the
set") fails in the only-if direction. -/
theorem C5_non_comparable_cex :
    criteria2condition ⟨"depth", "abc", .op_gt, []⟩ {} 0 .crit_depth .pt_int
        0 0 none =
      .error ⟨EINVAL, "depth criteria: integer expected: 'abc'"⟩ ∧
    ("depth criteria: integer expected: 'abc'" : String) ≠
      "Illegal comparator for depth criteria: == or != expected" :=
  ⟨rfl, by decide⟩

end RbhCfg

namespace RbhCfg

/-! ## Claim C6 -/

/-- `criteria2condition` only ORs bits into the caller's running attribute
mask (the criterion's base mask, twice, or the status-manager bit). -/
theorem criteria2condition_mask (kv : TypeKeyValue) (t0 : CompareTriplet)
    (mask0 : Nat) (crit : CompareCriteria) (ptype : CfgParamType)
    (am flags : Nat) (smi : Option SmInstance) (t : CompareTriplet) (m : Nat)
    (h : criteria2condition kv t0 mask0 crit ptype am flags smi = .ok (t, m)) :
    mask0 ||| m = m := by
  unfold criteria2condition at h
  split at h
  · exact Except.noConfusion h
  case _ mask1 heq =>
    have hm1 : mask0 ||| mask1 = mask1 := by
      split at heq
      · split at heq
        · exact Except.noConfusion heq
        · injection heq with h2
          rw [← h2]
          exact lor_submask_self _ _
      · injection heq with h2
        rw [← h2]
        exact lor_submask_self _ _
    dsimp only at h
    split at h
    · exact Except.noConfusion h
    case _ t2 hval =>
      split at h
      · exact Except.noConfusion h
      case _ u hcmp =>
        injection h with h2
        obtain ⟨rfl, rfl⟩ := Prod.mk.injEq .. ▸ h2
        exact submask_trans hm1 (lor_submask_self _ _)

/-- `interpret_condition` preserves every bit of the running mask. -/
theorem interpret_condition_mask (tbl : CritTable) (kv : TypeKeyValue)
    (t0 : CompareTriplet) (mask0 : Nat) (smi : Option SmInstance)
    (t : CompareTriplet) (m : Nat)
    (h : interpret_condition tbl kv t0 mask0 smi = .ok (t, m)) :
    mask0 ||| m = m := by
  unfold interpret_condition at h
  split at h
  · exact Except.noConfusion h
  case _ crit heq =>
    exact criteria2condition_mask _ _ _ _ _ _ _ _ _ _ h

/-- The boolean builder only adds bits to the running attribute mask. -/
theorem build_bool_expr_mask (tbl : CritTable) (smi : Option SmInstance)
    (e : TypeBoolExpr) :
    ∀ (out : Nat) (h : Heap) (mask : Nat) (h' : Heap) (m' : Nat),
      build_bool_expr tbl e out h mask smi = .ok (h', m') →
      mask ||| m' = m' := by
  induction e with
  | condition kv =>
    intro out h mask h' m' hb
    unfold build_bool_expr at hb
    dsimp only at hb
    split at hb
    · exact Except.noConfusion hb
    case _ p heq =>
      injection hb with h2
      obtain ⟨-, rfl⟩ := Prod.mk.injEq .. ▸ h2
      exact interpret_condition_mask _ _ _ _ _ _ _ heq
  | unary oper e1 ih =>
    intro out h mask h' m' hb
    unfold build_bool_expr at hb
    split at hb
    · exact ih _ _ _ _ _ hb
    · split at hb
      · exact Except.noConfusion hb
      · dsimp only at hb
        split at hb
        · exact Except.noConfusion hb
        case _ p heq =>
          injection hb with h2
          obtain ⟨-, rfl⟩ := Prod.mk.injEq .. ▸ h2
          exact ih _ _ _ _ _ heq
  | binary oper e1 e2 ih1 ih2 =>
    intro out h mask h' m' hb
    unfold build_bool_expr at hb
    split at hb
    · exact Except.noConfusion hb
    · dsimp only at hb
      split at hb
      · exact Except.noConfusion hb
      case _ p1 heq1 =>
        split at hb
        · exact Except.noConfusion hb
        case _ p2 heq2 =>
          injection hb with h2
          obtain ⟨-, rfl⟩ := Prod.mk.injEq .. ▸ h2
          exact submask_trans (ih1 _ _ _ _ _ heq1) (ih2 _ _ _ _ _ heq2)
  | other n =>
    intro out h mask h' m' hb
    exact Except.noConfusion hb

/-- The set-expression builder only adds bits to the running mask. -/
theorem build_set_expr_mask (policies : List FilesetItem) (s : TypeSet) :
    ∀ (out : Nat) (h : Heap) (mask : Nat) (h' : Heap) (m' : Nat),
      build_set_expr s out h mask policies = .ok (h', m') →
      mask ||| m' = m' := by
  induction s with
  | singleton name =>
    intro out h mask h' m' hb
    simp only [build_set_expr] at hb
    split at hb
    case _ fs heq =>
      injection hb with h2
      obtain ⟨-, rfl⟩ := Prod.mk.injEq .. ▸ h2
      exact lor_submask_self _ _
    case _ => exact Except.noConfusion hb
  | negation oper s1 ih =>
    intro out h mask h' m' hb
    simp only [build_set_expr] at hb
    split at hb
    · exact Except.noConfusion hb
    · split at hb
      · exact Except.noConfusion hb
      case _ p heq =>
        injection hb with h2
        obtain ⟨-, rfl⟩ := Prod.mk.injEq .. ▸ h2
        exact ih _ _ _ _ _ heq
  | binary oper s1 s2 ih1 ih2 =>
    intro out h mask h' m' hb
    simp only [build_set_expr] at hb
    split at hb
    · exact Except.noConfusion hb
    case _ bop heq0 =>
      split at hb
      · exact Except.noConfusion hb
      case _ p1 heq1 =>
        split at hb
        · exact Except.noConfusion hb
        case _ p2 heq2 =>
          injection hb with h2
          obtain ⟨-, rfl⟩ := Prod.mk.injEq .. ▸ h2
          exact submask_trans (ih1 _ _ _ _ _ heq1) (ih2 _ _ _ _ _ heq2)

/-- C6: the running attribute mask after any successful step of the
criteria compiler, the boolean builder or the set-expression builder is a
superset (as a bit set) of the mask before the step: every step only ORs
criterion masks (and, for status criteria, the status-manager bit) into
the accumulator, and the `==`/`!=` to `LIKE`/`UNLIKE` rewriting never
touches the mask. `a ||| b = b` states that every bit of `a` is in `b`. -/
theorem C6_mask_monotone :
    (∀ (kv : TypeKeyValue) (t0 : CompareTriplet) (mask0 : Nat)
        (crit : CompareCriteria) (ptype : CfgParamType) (am flags : Nat)
        (smi : Option SmInstance) (t : CompareTriplet) (m : Nat),
      criteria2condition kv t0 mask0 crit ptype am flags smi = .ok (t, m) →
      mask0 ||| m = m) ∧
    (∀ (tbl : CritTable) (smi : Option SmInstance) (e : TypeBoolExpr)
        (out : Nat) (h : Heap) (mask : Nat) (h' : Heap) (m' : Nat),
      build_bool_expr tbl e out h mask smi = .ok (h', m') →
      mask ||| m' = m') ∧
    (∀ (policies : List FilesetItem) (s : TypeSet) (out : Nat) (h : Heap)
        (mask : Nat) (h' : Heap) (m' : Nat),
      build_set_expr s out h mask policies = .ok (h', m') →
      mask ||| m' = m') :=
  ⟨criteria2condition_mask,
   fun tbl smi e => build_bool_expr_mask tbl smi e,
   fun policies s => build_set_expr_mask policies s⟩

/-- Witness for C6 at concrete successful runs of all three builders. -/
theorem C6_mask_monotone_witness :
    (4 : Nat) ||| ((4 ||| 1) ||| 1) = (4 ||| 1) ||| 1 ∧
    (2 : Nat) ||| ((2 ||| 1) ||| 1) = (2 ||| 1) ||| 1 ∧
    (4 : Nat) ||| ((4 ||| 1) ||| 2) = (4 ||| 1) ||| 2 :=
  ⟨C6_mask_monotone.1 ⟨"path", "*.log", .op_equal, []⟩ {} 4 .crit_path
     .pt_string 1 0 none _ _ rfl,
   C6_mask_monotone.2.1 ⟨fun n => if n = "path" then some .crit_path else none,
      fun _ => ⟨.pt_string, 1, 0⟩⟩ none
     (.condition ⟨"path", "x", .op_equal, []⟩) 0 scenario5_heap 2 _ _ rfl,
   C6_mask_monotone.2.2
     (scenario5_policies ⟨.node_unary_expr, 0, .bool_not, true, some 2, none⟩
       ⟨.node_condition, 5, .bool_err, true, none, none⟩ 1 2)
     (.binary .set_op_union (.singleton "hot") (.singleton "cold")) 0
     scenario5_heap 4 _ _ rfl⟩

end RbhCfg
